import Mathlib

/-
  Host graphics-driver exposure of snap-confine
  (cmd/snap-confine/mount-support-nvidia.c, mount-support-wsl2-gpu.c,
  mount-support.h): a shallow embedding with explicit state passing.

  Bytes of files and of C buffers are natural numbers, paths are strings,
  the host filesystem is an explicit state value and every state-changing
  system call is appended to a trace.
-/

namespace SnapConfine

-- ---------------------------------------------------------------------------
-- C library pieces used by sc_probe_nvidia_driver
-- ---------------------------------------------------------------------------

/-- Character class isspace of the C locale: space, and the controls
    horizontal tab, newline, vertical tab, form feed, carriage return. -/
def isspace (c : Nat) : Bool := c == 32 || (9 ≤ c && c ≤ 13)

/-- Character class isdigit: the bytes of the characters 0 to 9. -/
def isdigit (c : Nat) : Bool := 48 ≤ c && c ≤ 57

def INT_MAX : Int := 2147483647

def INT_MIN : Int := -2147483648

def LONG_MAX : Int := 9223372036854775807

def LONG_MIN : Int := -9223372036854775808

/-- Value of a run of decimal digit bytes, most significant first. -/
def digits_value (ds : List Nat) : Nat :=
  ds.foldl (fun acc d => 10 * acc + (d - 48)) 0

/-- Saturation done by strtol, which the C library uses to read the digits
    of a conversion. -/
def clamp_long (v : Int) : Int :=
  if v > LONG_MAX then LONG_MAX else if v < LONG_MIN then LONG_MIN else v

/-- Conversion of a long to int: the low 32 bits, twos complement. -/
def to_int (v : Int) : Int := (v + 2 ^ 31) % 2 ^ 32 - 2 ^ 31

/-- The string a C function sees in a buffer: the bytes before the first
    NUL byte. -/
def c_str (buf : List Nat) : List Nat := buf.takeWhile (fun c => c != 0)

/-- Call sscanf(s, "%d.", &major) on the C string s, given the old value of
    major: the pair of the return value and the value of major afterwards.
    The conversion skips white space, takes an optional sign and then needs
    at least one decimal digit. End of input before the conversion gives EOF
    (-1), a missing digit gives 0, and a stored conversion gives 1 whether or
    not the literal dot of the format matches afterwards. -/
def sscanf_major (s : List Nat) (major : Int) : Int × Int :=
  match s.dropWhile isspace with
  | [] => (-1, major)
  | c :: rest =>
    let negative := c == 45
    let body := if c == 45 || c == 43 then rest else c :: rest
    let ds := body.takeWhile isdigit
    if ds.isEmpty then (0, major)
    else
      let v : Int := if negative then -(digits_value ds : Int) else (digits_value ds : Int)
      (1, to_int (clamp_long v))

-- ---------------------------------------------------------------------------
-- Driver version prober (mount-support-nvidia.c, lines 227-263)
-- ---------------------------------------------------------------------------

/-- The struct sc_nv_version: the major number and the 128 byte buffer raw. -/
structure sc_nv_version where
  major : Int
  raw : List Nat
deriving DecidableEq

/-- What fopen and fread find at /sys/module/nvidia/version. -/
inductive VersionFile where
  /-- The file does not exist: fopen fails with ENOENT. -/
  | absent
  /-- The file exists and fopen fails with another error. -/
  | unreadable
  /-- The file opens and holds these bytes. -/
  | content (bytes : List Nat)
deriving DecidableEq

/-- Result of a probe: the filled struct, or the message of die. -/
inductive Probe where
  | ok (version : sc_nv_version)
  | die (msg : String)
deriving DecidableEq

/-- Size of the buffer raw of sc_nv_version. -/
def RAW_SIZE : Nat := 128

/-- The function sc_probe_nvidia_driver. -/
def sc_probe_nvidia_driver (file : VersionFile) : Probe :=
  -- memset(version, 0, sizeof *version)
  let major : Int := 0
  let raw : List Nat := List.replicate RAW_SIZE 0
  match file with
  | .absent => .ok { major := major, raw := raw }
  | .unreadable => .die "cannot open file describing nvidia driver version"
  | .content bytes =>
    -- fread(version->raw, 1, sizeof version->raw - 1, file)
    let got := bytes.take (RAW_SIZE - 1)
    let nread : Int := got.length
    -- the end-of-file mark is set when fewer bytes than asked for are left
    let feof : Bool := decide (bytes.length < RAW_SIZE - 1)
    let raw := got ++ raw.drop got.length
    if nread < 0 then .die "cannot read nvidia driver version string"
    else if nread == ((RAW_SIZE - 1 : Nat) : Int) && !feof then
      .die "cannot fit entire nvidia driver version string"
    else
      let raw := raw.set nread.toNat 0
      let raw :=
        if nread > 0 && raw.getD (nread.toNat - 1) 0 == 10 then raw.set (nread.toNat - 1) 0
        else raw
      let r := sscanf_major (c_str raw) major
      if r.1 != 1 then
        .die "cannot parse major version from nvidia driver version string"
      else .ok { major := r.2, raw := raw }

/-- Bytes of an ASCII string. -/
def bytes_of (s : String) : List Nat := s.toList.map Char.toNat

/-- The content with one trailing newline removed if there is one. -/
def strip_newline (content : List Nat) : List Nat :=
  if content.getLast? = some 10 then content.dropLast else content

/-- A leading integer in the sense of the C conversions: after optional
    white space and an optional sign comes a decimal digit. -/
def has_leading_integer (s : List Nat) : Bool :=
  match s.dropWhile isspace with
  | [] => false
  | c :: rest =>
    if c = 45 ∨ c = 43 then
      match rest with
      | [] => false
      | d :: _ => isdigit d
    else isdigit c

/-- The buffer raw after a successful read of a short file. -/
def raw_of (bytes : List Nat) : List Nat :=
  strip_newline bytes ++ List.replicate (RAW_SIZE - (strip_newline bytes).length) 0

/-- The integer written by an optional sign and a run of digits. -/
def signed_value (sign ds : List Nat) : Int :=
  if sign = [45] then -(digits_value ds : Int) else (digits_value ds : Int)

-- ---------------------------------------------------------------------------
-- Host state, system calls and helpers of libsnap-confine-private
-- ---------------------------------------------------------------------------

/-- Error numbers a failing system call may leave in errno. -/
inductive Errno where
  | EEXIST
  | ENOENT
  | EACCES
  | EPERM
  | EROFS
  | ENOSPC
  | ENOTDIR
deriving DecidableEq

/-- The effective identity of the process: user id and group id. -/
structure sc_identity where
  uid : Nat
  gid : Nat
deriving DecidableEq

/-- One state-changing call, with its arguments and its return value, as kept
    in the trace of a host. -/
inductive Op where
  | set_effective_identity (identity : sc_identity)
  | mkdir (path : String) (mode : Nat) (res : Int)
  | mkpath (path : String) (mode : Nat) (res : Int)
  | chown (path : String) (uid gid : Nat) (res : Int)
  | mount (src dst : String) (flags : Nat) (res : Int)
  | populate (libgl_dir source_dir : String) (glob_list : List String)
deriving DecidableEq

/-- The host as the subsystem sees it: the version file, the paths that
    exist, who owns them, the bind mounts made so far, the effective identity
    of the process, the failures the environment imposes on system calls, and
    the trace of the state-changing calls made so far, oldest first. -/
structure Host where
  version_file : VersionFile
  paths : List String
  owner : String → sc_identity
  mounts : List (String × String)
  identity : sc_identity
  mkdir_fault : String → Option Errno
  mkpath_fault : String → Bool
  chown_fault : String → Bool
  mount_fault : String → String → Bool
  malloc_fault : Bool
  trace : List Op

/-- Result of a function of the subsystem: it returns a value in a new host
    state, or the process dies with a message in the state reached. -/
inductive Outcome (α : Type) where
  | ret (value : α) (host : Host)
  | died (msg : String) (host : Host)

/-- The host state in which a run ended. -/
def Outcome.host {α : Type} : Outcome α → Host
  | .ret _ h => h
  | .died _ h => h

/-- Whether the run ended in die. -/
def Outcome.fatal {α : Type} : Outcome α → Bool
  | .ret _ _ => false
  | .died _ _ => true

/-- Sequencing: the continuation runs only when the first part returned. -/
def Outcome.andThen {α β : Type} (o : Outcome α) (k : α → Host → Outcome β) : Outcome β :=
  match o with
  | .ret a h => k a h
  | .died msg h => .died msg h

/-- Modelled from the spec: die is defined in
    libsnap-confine-private/utils.c, which is not among the sources. The spec
    (7) says a fatal condition aborts the entire process immediately with a
    descriptive message, with no local recovery and no rollback: the run ends
    in the state reached. -/
abbrev die {α : Type} (msg : String) (h : Host) : Outcome α := .died msg h

/-- Return value and errno of a system call, and the host after it. -/
structure SysRet where
  res : Int
  errno : Option Errno
  host : Host

def SC_NVIDIA_DRIVER_VERSION_FILE : String := "/sys/module/nvidia/version"

/-- The macro SC_EXTRA_LIB_DIR of mount-support.h. -/
def SC_EXTRA_LIB_DIR : String := "/var/lib/snapd/lib"

def SC_LIBGL_DIR : String := SC_EXTRA_LIB_DIR ++ "/gl"

def SC_LIBGL32_DIR : String := SC_EXTRA_LIB_DIR ++ "/gl32"

def SC_VULKAN_DIR : String := SC_EXTRA_LIB_DIR ++ "/vulkan"

def SC_GLVND_DIR : String := SC_EXTRA_LIB_DIR ++ "/glvnd"

def SC_VULKAN_SOURCE_DIR : String := "/usr/share/vulkan"

def SC_EGL_VENDOR_SOURCE_DIR : String := "/usr/share/glvnd"

/-- The macro SC_LIB of mount-support-wsl2-gpu.c. -/
def SC_LIB : String := "/var/lib/snapd/lib"

def SC_WSL_GPU_DIR : String := SC_LIB ++ "/wsl"

def SC_HOST_WSL_DIR : String := "/usr/lib/wsl/lib"

/-- Flag MS_BIND of sys/mount.h. -/
def MS_BIND : Nat := 4096

/-- Limit PATH_MAX of limits.h on Linux. -/
def PATH_MAX : Nat := 4096

/-- Call access(path, F_OK): 0 when the path exists, -1 otherwise. The
    version file exists unless it is absent. -/
def access (path : String) (h : Host) : Int :=
  if path = SC_NVIDIA_DRIVER_VERSION_FILE then
    (if h.version_file = VersionFile.absent then -1 else 0)
  else if path ∈ h.paths then 0 else -1

/-- Call mkdir(path, mode): fails as the environment says, else with EEXIST
    when the path exists, else creates the directory, owned by the effective
    identity. -/
def mkdir (path : String) (mode : Nat) (h : Host) : SysRet :=
  match h.mkdir_fault path with
  | some e =>
    { res := -1, errno := some e, host := { h with trace := h.trace ++ [Op.mkdir path mode (-1)] } }
  | none =>
    if access path h = 0 then
      { res := -1, errno := some Errno.EEXIST,
        host := { h with trace := h.trace ++ [Op.mkdir path mode (-1)] } }
    else
      { res := 0, errno := none,
        host := { h with
          paths := path :: h.paths
          owner := fun p => if p = path then h.identity else h.owner p
          trace := h.trace ++ [Op.mkdir path mode 0] } }

/-- Call chown(path, uid, gid). -/
def chown (path : String) (uid gid : Nat) (h : Host) : SysRet :=
  if h.chown_fault path then
    { res := -1, errno := some Errno.EPERM,
      host := { h with trace := h.trace ++ [Op.chown path uid gid (-1)] } }
  else
    { res := 0, errno := none,
      host := { h with
        owner := fun p => if p = path then { uid := uid, gid := gid } else h.owner p
        trace := h.trace ++ [Op.chown path uid gid 0] } }

/-- Call mount(src, dst, NULL, flags, NULL) with the flag MS_BIND: on success
    a new entry is added to the mount table, on top of what is mounted at dst
    already. -/
def mount (src dst : String) (flags : Nat) (h : Host) : SysRet :=
  if h.mount_fault src dst then
    { res := -1, errno := some Errno.EACCES,
      host := { h with trace := h.trace ++ [Op.mount src dst flags (-1)] } }
  else
    { res := 0, errno := none,
      host := { h with
        mounts := h.mounts ++ [(src, dst)]
        trace := h.trace ++ [Op.mount src dst flags 0] } }

/-- Modelled from the spec: sc_root_group_identity is defined in
    libsnap-confine-private/utils.c, which is not among the sources. The spec
    (4.4) says the requested identity is root:root at every call site. -/
def sc_root_group_identity : sc_identity := { uid := 0, gid := 0 }

/-- Modelled from the spec: sc_set_effective_identity is defined in
    libsnap-confine-private/utils.c, which is not among the sources. The spec
    (4.4) says it captures the current effective identity and switches to the
    requested one; the captured identity is the return value. -/
def sc_set_effective_identity (identity : sc_identity) (h : Host) : sc_identity × Host :=
  (h.identity,
   { h with identity := identity, trace := h.trace ++ [Op.set_effective_identity identity] })

/-- Modelled from the spec: sc_nonfatal_mkpath is defined in
    libsnap-confine-private/utils.c, which is not among the sources. The spec
    (4.6) says the orchestrators ensure that the shared base directory exists:
    the call returns 0 when the directory exists afterwards, whether it was
    created now or was there before, and -1 when it cannot be created. Parent
    directories are not tracked. -/
def sc_nonfatal_mkpath (path : String) (mode : Nat) (h : Host) : Int × Host :=
  if h.mkpath_fault path then
    (-1, { h with trace := h.trace ++ [Op.mkpath path mode (-1)] })
  else if access path h = 0 then
    (0, { h with trace := h.trace ++ [Op.mkpath path mode 0] })
  else
    (0, { h with
      paths := path :: h.paths
      owner := fun p => if p = path then h.identity else h.owner p
      trace := h.trace ++ [Op.mkpath path mode 0] })

/-- Modelled from the spec: sc_must_snprintf is defined in
    libsnap-confine-private/utils.c, which is not among the sources. The
    callers pass a buffer and its size; a formatted string that does not fit
    with its terminating NUL is a fatal inconsistency (spec 7). One character
    of a path stands for one byte. -/
def sc_must_snprintf (size : Nat) (formatted : String) : Option String :=
  if formatted.length < size then some formatted else none

/-- Modelled from the spec: sc_streq is defined in
    libsnap-confine-private/string-utils.c, which is not among the sources;
    the spec (4.6) writes the test as base_snap_name == "core". -/
def sc_streq (a b : String) : Bool := a == b

/-- Decimal digits of a natural number, as the conversion %d prints them. -/
def dec_digits : Nat → Nat → List Char
  | 0, _ => []
  | fuel + 1, n =>
    if n < 10 then [Char.ofNat (48 + n)]
    else dec_digits fuel (n / 10) ++ [Char.ofNat (48 + n % 10)]

/-- The conversion %d of printf applied to an int. -/
def fmt_d (v : Int) : String :=
  (if v < 0 then "-" else "") ++ String.mk (dec_digits 20 v.natAbs)

/-- The conversion %s of printf applied to a buffer: its C string. -/
def fmt_s (buf : List Nat) : String := String.mk ((c_str buf).map Char.ofNat)

/-- Modelled from the spec: sc_populate_libgl_with_hostfs_symlinks is declared
    in mount-support.h and defined in mount-support.c, which is not among the
    sources. The spec (4.3) says each glob pattern is expanded against the
    source directory and every match becomes a symlink in the target
    directory; the host's directory listings are not part of the state, so
    the call is kept as one entry of the trace. -/
def sc_populate_libgl_with_hostfs_symlinks (libgl_dir source_dir : String)
    (glob_list : List String) (h : Host) : Host :=
  { h with trace := h.trace ++ [Op.populate libgl_dir source_dir glob_list] }

/-- Modelled from the spec: sc_mkdir_and_mount_and_glob_files is declared in
    mount-support.h and defined in mount-support.c, which is not among the
    sources. The spec (2, 4.3) says the farm builder creates its target
    directory under the sandbox root the same privileged way as the mount
    executor and then, for each source directory in order, populates the
    target with the matches of the glob patterns. -/
def sc_mkdir_and_mount_and_glob_files (rootfs_dir : String) (source_dir : List String)
    (tgt_dir : String) (glob_list : List String) (h : Host) : Outcome Unit :=
  let libgl_dir := rootfs_dir ++ tgt_dir
  let old := (sc_set_effective_identity sc_root_group_identity h).1
  let h1 := (sc_set_effective_identity sc_root_group_identity h).2
  let r := mkdir libgl_dir 0o755 h1
  if r.res != 0 && r.errno != some Errno.EEXIST then
    die ("cannot create directory " ++ libgl_dir) r.host
  else
    let fixed : Outcome Unit :=
      if r.res == 0 then
        let c := chown libgl_dir 0 0 r.host
        if c.res < 0 then die ("cannot change ownership of " ++ libgl_dir) c.host
        else .ret () c.host
      else .ret () r.host
    fixed.andThen fun _ h2 =>
      let h3 := (sc_set_effective_identity old h2).2
      .ret () (source_dir.foldl
        (fun hs src => sc_populate_libgl_with_hostfs_symlinks libgl_dir src glob_list hs) h3)

-- ---------------------------------------------------------------------------
-- Tables of mount-support-nvidia.c
-- ---------------------------------------------------------------------------

def vulkan_globs : List String := ["icd.d/*nvidia*.json"]

def vulkan_globs_len : Nat := vulkan_globs.length

def egl_vendor_globs : List String := ["egl_vendor.d/*nvidia*.json"]

def egl_vendor_globs_len : Nat := egl_vendor_globs.length

def nvidia_globs : List String := [
  "libEGL_nvidia.so*",
  "libGLESv1_CM_nvidia.so*",
  "libGLESv2_nvidia.so*",
  "libGLX_nvidia.so*",
  "libXvMCNVIDIA.so*",
  "libXvMCNVIDIA_dynamic.so*",
  "libnvidia-cfg.so*",
  "libnvidia-compiler.so*",
  "libnvidia-eglcore.so*",
  "libnvidia-egl-wayland*",
  "libnvidia-encode.so*",
  "libnvidia-fatbinaryloader.so*",
  "libnvidia-fbc.so*",
  "libnvidia-glcore.so*",
  "libnvidia-glsi.so*",
  "libnvidia-glvkspirv.so*",
  "libnvidia-gpucomp.so*",
  "libnvidia-ifr.so*",
  "libnvidia-ml.so*",
  "libnvidia-opencl.so*",
  "libnvidia-opticalflow.so*",
  "libnvidia-ptxjitcompiler.so*",
  "libnvidia-rtcore.so*",
  "libnvidia-tls.so*",
  "libnvoptix.so*",
  "tls/libnvidia-tls.so*",
  "vdpau/libvdpau_nvidia.so*",
  "libnvdc.so*",
  "libnvos.so*",
  "libnvrm_gpu.so*",
  "libnvimp.so*",
  "libnvrm.so*",
  "libnvrm_graphics.so*",
  "libcuda.so*",
  "libcudart.so*",
  "libnvcuvid.so*",
  "libcufft.so*",
  "libcublas.so*",
  "libcublasLt.so*",
  "libcusolver.so*",
  "libcuparse.so*",
  "libcurand.so*",
  "libnppc.so*",
  "libnppig.so*",
  "libnppial.so*",
  "libnppicc.so*",
  "libnppidei.so*",
  "libnppist.so*",
  "libnppcif.so*",
  "libnppim.so*",
  "libnppitc.so*",
  "libnvrtc*",
  "libnvrtc-builtins*",
  "libnvToolsExt.so*",
  "libcudnn.so*",
  "libcudnn_adv_infer*",
  "libcudnn_adv_train*",
  "libcudnn_cnn_infer*",
  "libcudnn_cnn_train*",
  "libcudnn_ops_infer*",
  "libcudnn_ops_train*"]

def nvidia_globs_len : Nat := nvidia_globs.length

def glvnd_globs : List String := [
  "libEGL.so*",
  "libGL.so*",
  "libOpenGL.so*",
  "libGLESv1_CM.so*",
  "libGLESv2.so*",
  "libGLX_indirect.so*",
  "libGLX.so*",
  "libGLdispatch.so*",
  "libGLU.so*"]

def glvnd_globs_len : Nat := glvnd_globs.length

/-- Which of the macros NVIDIA_BIARCH and NVIDIA_MULTIARCH the build defines. -/
inductive NvidiaBuild where
  | neither
  | NVIDIA_BIARCH
  | NVIDIA_MULTIARCH
deriving DecidableEq

/-- Build configuration of config.h, which is not among the sources: the
    strategy compiled in, the library directories, the architecture triplets
    and whether UINTPTR_MAX is 0xffffffffffffffff. -/
structure Config where
  build : NvidiaBuild
  NATIVE_LIBDIR : String
  LIB32_DIR : String
  HOST_ARCH_TRIPLET : String
  HOST_ARCH32_TRIPLET : String
  uintptr_64 : Bool

-- ---------------------------------------------------------------------------
-- Functions of mount-support-nvidia.c
-- ---------------------------------------------------------------------------

/-- The function sc_mount_nvidia_driver_biarch. -/
def sc_mount_nvidia_driver_biarch (cfg : Config) (rootfs_dir : String) (globs : List String)
    (h : Host) : Outcome Unit :=
  let native_sources := [cfg.NATIVE_LIBDIR, cfg.NATIVE_LIBDIR ++ "/nvidia*"]
  let lib32_sources := [cfg.LIB32_DIR, cfg.LIB32_DIR ++ "/nvidia*"]
  -- Primary arch
  (sc_mkdir_and_mount_and_glob_files rootfs_dir native_sources SC_LIBGL_DIR globs h).andThen
    fun _ h1 =>
      if cfg.uintptr_64 then
        -- Alternative 32-bit support
        sc_mkdir_and_mount_and_glob_files rootfs_dir lib32_sources SC_LIBGL32_DIR globs h1
      else .ret () h1

/-- The function sc_mkdir_and_mount_and_bind. -/
def sc_mkdir_and_mount_and_bind (rootfs_dir src_dir tgt_dir : String) (h : Host) :
    Outcome Unit :=
  -- Probe sysfs to get the version of the driver that is currently inserted.
  match sc_probe_nvidia_driver h.version_file with
  | .die msg => die msg h
  | .ok version =>
    if version.major == 0 then .ret () h
    else
      match sc_must_snprintf PATH_MAX (src_dir ++ "-" ++ fmt_d version.major) with
      | none => die "cannot format string" h
      | some src =>
        match sc_must_snprintf PATH_MAX (rootfs_dir ++ tgt_dir) with
        | none => die "cannot format string" h
        | some dst =>
          if access src h != 0 then .ret () h
          else
            let old := (sc_set_effective_identity sc_root_group_identity h).1
            let h1 := (sc_set_effective_identity sc_root_group_identity h).2
            let r := mkdir dst 0o755 h1
            if r.res != 0 && r.errno != some Errno.EEXIST then
              die ("cannot create directory " ++ dst) r.host
            else
              let fixed : Outcome Unit :=
                if r.res == 0 then
                  -- Adjust the ownership only if we created the directory.
                  let c := chown dst 0 0 r.host
                  if c.res < 0 then die ("cannot change ownership of " ++ dst) c.host
                  else .ret () c.host
                else .ret () r.host
              fixed.andThen fun _ h2 =>
                let h3 := (sc_set_effective_identity old h2).2
                let m := mount src dst MS_BIND h3
                if m.res != 0 then
                  die ("cannot bind mount nvidia driver " ++ src ++ " -> " ++ dst) m.host
                else .ret () m.host

/-- The function sc_mount_nvidia_is_driver_in_dir. -/
def sc_mount_nvidia_is_driver_in_dir (dir : String) (h : Host) : Outcome Int :=
  match sc_probe_nvidia_driver h.version_file with
  | .die msg => die msg h
  | .ok version =>
    if version.major == 0 then .ret 0 h
    else
      match sc_must_snprintf 512 (dir ++ "/libnvidia-glcore.so." ++ fmt_s version.raw) with
      | none => die "cannot format string" h
      | some driver_path =>
        if access driver_path h == 0 then .ret 1 h else .ret 0 h

/-- The function sc_mount_nvidia_driver_multiarch. -/
def sc_mount_nvidia_driver_multiarch (cfg : Config) (rootfs_dir : String) (globs : List String)
    (h : Host) : Outcome Unit :=
  let native_libdir := cfg.NATIVE_LIBDIR ++ "/" ++ cfg.HOST_ARCH_TRIPLET
  let lib32_libdir := cfg.NATIVE_LIBDIR ++ "/" ++ cfg.HOST_ARCH32_TRIPLET
  let bind_both : Host → Outcome Unit := fun h0 =>
    -- Attempt mount of both the native and 32-bit variants of the driver if they exist
    (sc_mkdir_and_mount_and_bind rootfs_dir "/usr/lib/nvidia" SC_LIBGL_DIR h0).andThen
      fun _ h1 => sc_mkdir_and_mount_and_bind rootfs_dir "/usr/lib32/nvidia" SC_LIBGL32_DIR h1
  if cfg.HOST_ARCH_TRIPLET.length > 0 then
    (sc_mount_nvidia_is_driver_in_dir native_libdir h).andThen fun found h0 =>
      if found == 1 then
        -- Primary arch
        (sc_mkdir_and_mount_and_glob_files rootfs_dir [native_libdir] SC_LIBGL_DIR globs
            h0).andThen
          fun _ h1 =>
            -- Alternative 32-bit support
            if cfg.HOST_ARCH32_TRIPLET.length > 0 then
              (sc_mount_nvidia_is_driver_in_dir lib32_libdir h1).andThen fun found32 h2 =>
                if found32 == 1 then
                  sc_mkdir_and_mount_and_glob_files rootfs_dir [lib32_libdir] SC_LIBGL32_DIR
                    globs h2
                else .ret () h2
            else .ret () h1
      else bind_both h0
  else bind_both h

/-- The function sc_mount_vulkan. -/
def sc_mount_vulkan (rootfs_dir : String) (h : Host) : Outcome Unit :=
  sc_mkdir_and_mount_and_glob_files rootfs_dir [SC_VULKAN_SOURCE_DIR] SC_VULKAN_DIR
    vulkan_globs h

/-- The function sc_mount_egl. -/
def sc_mount_egl (rootfs_dir : String) (h : Host) : Outcome Unit :=
  sc_mkdir_and_mount_and_glob_files rootfs_dir [SC_EGL_VENDOR_SOURCE_DIR] SC_GLVND_DIR
    egl_vendor_globs h

/-- The architecture strategy compiled into sc_mount_nvidia_driver. -/
def nvidia_strategy (cfg : Config) (rootfs_dir : String) (globs : List String) (h : Host) :
    Outcome Unit :=
  match cfg.build with
  | .NVIDIA_MULTIARCH => sc_mount_nvidia_driver_multiarch cfg rootfs_dir globs h
  | .NVIDIA_BIARCH => sc_mount_nvidia_driver_biarch cfg rootfs_dir globs h
  | .neither => .ret () h

/-- The function sc_mount_nvidia_driver. -/
def sc_mount_nvidia_driver (cfg : Config) (rootfs_dir base_snap_name : String) (h : Host) :
    Outcome Unit :=
  -- Without the NVIDIA module loaded the drivers are not mounted
  if access SC_NVIDIA_DRIVER_VERSION_FILE h != 0 then .ret () h
  else
    let old := (sc_set_effective_identity sc_root_group_identity h).1
    let h1 := (sc_set_effective_identity sc_root_group_identity h).2
    let res := (sc_nonfatal_mkpath SC_EXTRA_LIB_DIR 0o755 h1).1
    let h2 := (sc_nonfatal_mkpath SC_EXTRA_LIB_DIR 0o755 h1).2
    if res != 0 then die ("cannot create " ++ SC_EXTRA_LIB_DIR) h2
    else
      let fixed : Outcome Unit :=
        if res == 0 then
          -- Adjust the ownership only if we created the directory.
          let c := chown SC_EXTRA_LIB_DIR 0 0 h2
          if c.res < 0 then die ("cannot change ownership of " ++ SC_EXTRA_LIB_DIR) c.host
          else .ret () c.host
        else .ret () h2
      fixed.andThen fun _ h3 =>
        let h4 := (sc_set_effective_identity old h3).2
        let selected : Outcome (List String) :=
          if cfg.build = NvidiaBuild.neither then .ret [] h4
          else if sc_streq base_snap_name "core" then
            if h4.malloc_fault then die "cannot allocate globs array" h4
            else .ret (nvidia_globs ++ glvnd_globs) h4
          else .ret nvidia_globs h4
        selected.andThen fun globs h5 =>
          (nvidia_strategy cfg rootfs_dir globs h5).andThen fun _ h6 =>
            -- Common for both driver mechanisms
            (sc_mount_vulkan rootfs_dir h6).andThen fun _ h7 =>
              sc_mount_egl rootfs_dir h7

-- ---------------------------------------------------------------------------
-- Functions of mount-support-wsl2-gpu.c
-- ---------------------------------------------------------------------------

/-- The function sc_mkdir_and_mount_and_bind_wsl_gpu; the parameter rootfs_dir
    is not used by its body. -/
def sc_mkdir_and_mount_and_bind_wsl_gpu (rootfs_dir src_dir dst_dir : String) (h : Host) :
    Outcome Unit :=
  let _unused := rootfs_dir
  -- Without a userspace driver there is nothing to mount.
  if access src_dir h != 0 then .ret () h
  else
    let old := (sc_set_effective_identity sc_root_group_identity h).1
    let h1 := (sc_set_effective_identity sc_root_group_identity h).2
    let r := mkdir dst_dir 0o755 h1
    if r.res != 0 && r.errno != some Errno.EEXIST then
      die ("cannot create directory " ++ dst_dir) r.host
    else
      let h2 := (sc_set_effective_identity old r.host).2
      let m := mount src_dir dst_dir MS_BIND h2
      if m.res != 0 then
        die ("cannot bind mount WSL2 GPU driver " ++ src_dir ++ " -> " ++ dst_dir) m.host
      else .ret () m.host

/-- The function sc_mount_wsl2_gpu_driver. -/
def sc_mount_wsl2_gpu_driver (rootfs_dir : String) (h : Host) : Outcome Unit :=
  -- Without the WSL2 GPU libraries on the host the drivers are not mounted
  if access SC_HOST_WSL_DIR h != 0 then .ret () h
  else
    let old := (sc_set_effective_identity sc_root_group_identity h).1
    let h1 := (sc_set_effective_identity sc_root_group_identity h).2
    let res := (sc_nonfatal_mkpath SC_LIB 0o755 h1).1
    let h2 := (sc_nonfatal_mkpath SC_LIB 0o755 h1).2
    if res != 0 then die ("cannot create " ++ SC_LIB) h2
    else
      let h3 := (sc_set_effective_identity old h2).2
      sc_mkdir_and_mount_and_bind_wsl_gpu rootfs_dir SC_HOST_WSL_DIR SC_WSL_GPU_DIR h3

/-- A host with nothing on it: no version file, no paths, everything owned by
    the user 1000:1000 who also is the effective identity, and no failures. -/
def empty_host : Host :=
  { version_file := .absent
    paths := []
    owner := fun _ => { uid := 1000, gid := 1000 }
    mounts := []
    identity := { uid := 1000, gid := 1000 }
    mkdir_fault := fun _ => none
    mkpath_fault := fun _ => false
    chown_fault := fun _ => false
    mount_fault := fun _ _ => false
    malloc_fault := false
    trace := [] }

-- ---------------------------------------------------------------------------
-- Predicates on traces used by the theorems
-- ---------------------------------------------------------------------------

/-- The second host continues the trace of the first one, and every call
    added satisfies Q. -/
def extends_with (Q : Op → Prop) (h h2 : Host) : Prop :=
  ∃ added, h2.trace = h.trace ++ added ∧ ∀ op ∈ added, Q op

/-- Calls of the privileged base directory step of sc_mount_nvidia_driver. -/
def base_op : Op → Prop
  | .set_effective_identity _ => True
  | .mkpath p m _ => p = SC_EXTRA_LIB_DIR ∧ m = 0o755
  | .chown p u g _ => p = SC_EXTRA_LIB_DIR ∧ u = 0 ∧ g = 0
  | _ => False

/-- Calls a direct bind onto dst may make. -/
def bind_op (dst : String) : Op → Prop
  | .set_effective_identity _ => True
  | .mkdir p m _ => p = dst ∧ m = 0o755
  | .chown p u g _ => p = dst ∧ u = 0 ∧ g = 0
  | .mount _ d f _ => d = dst ∧ f = MS_BIND
  | _ => False

/-- Calls a glob farm in the directory dir with the patterns globs may make. -/
def farm_op (dir : String) (globs : List String) : Op → Prop
  | .set_effective_identity _ => True
  | .mkdir p m _ => p = dir ∧ m = 0o755
  | .chown p u g _ => p = dir ∧ u = 0 ∧ g = 0
  | .populate d _ g => d = dir ∧ g = globs
  | _ => False

/-- Calls sc_mount_nvidia_driver may make when the strategy is handed the
    glob list globs. -/
def nvidia_op (rootfs_dir : String) (globs : List String) (op : Op) : Prop :=
  base_op op
    ∨ bind_op (rootfs_dir ++ SC_LIBGL_DIR) op
    ∨ bind_op (rootfs_dir ++ SC_LIBGL32_DIR) op
    ∨ farm_op (rootfs_dir ++ SC_LIBGL_DIR) globs op
    ∨ farm_op (rootfs_dir ++ SC_LIBGL32_DIR) globs op
    ∨ farm_op (rootfs_dir ++ SC_VULKAN_DIR) vulkan_globs op
    ∨ farm_op (rootfs_dir ++ SC_GLVND_DIR) egl_vendor_globs op

/-- Calls sc_mount_wsl2_gpu_driver may make. -/
def wsl_op : Op → Prop
  | .set_effective_identity _ => True
  | .mkpath p m _ => p = SC_LIB ∧ m = 0o755
  | .mkdir p m _ => p = SC_WSL_GPU_DIR ∧ m = 0o755
  | .mount s d f _ => s = SC_HOST_WSL_DIR ∧ d = SC_WSL_GPU_DIR ∧ f = MS_BIND
  | _ => False

/-- The chown calls of a trace, in order: path, user id and group id. -/
def chown_calls : List Op → List (String × Nat × Nat)
  | [] => []
  | .chown p u g _ :: rest => (p, u, g) :: chown_calls rest
  | _ :: rest => chown_calls rest

/-- Whether the path p lies strictly below the directory base: it is base,
    a slash, and at least one more character. -/
def is_proper_subdir (base p : String) : Bool :=
  (base.data ++ ['/']).isPrefixOf p.data && decide (base.length + 1 < p.length)

/-- A multiarch build for a 64 bit host. -/
def multiarch_config : Config :=
  { build := .NVIDIA_MULTIARCH
    NATIVE_LIBDIR := "/usr/lib"
    LIB32_DIR := "/usr/lib32"
    HOST_ARCH_TRIPLET := "x86_64-linux-gnu"
    HOST_ARCH32_TRIPLET := "i386-linux-gnu"
    uintptr_64 := true }

/-- A biarch build for a 64 bit host. -/
def biarch_config : Config :=
  { build := .NVIDIA_BIARCH
    NATIVE_LIBDIR := "/usr/lib64"
    LIB32_DIR := "/usr/lib32"
    HOST_ARCH_TRIPLET := ""
    HOST_ARCH32_TRIPLET := ""
    uintptr_64 := true }

/-- A run that returns does so with the effective identity of the host it
    started from. -/
def returns_with_identity {α : Type} (h : Host) (o : Outcome α) : Prop :=
  ∀ a h2, o = .ret a h2 → h2.identity = h.identity

/-- The calls a run added to the trace of the host it started from. -/
def Outcome.added {α : Type} (h : Host) (o : Outcome α) : List Op :=
  o.host.trace.drop h.trace.length

/-- A host with the driver 440.48.02 loaded and nothing else. -/
def nvidia_host : Host :=
  { empty_host with version_file := .content (bytes_of "440.48.02\n") }

/-- A host with the driver 440.48.02 loaded and its libraries in the
    directory /usr/lib/nvidia-440. -/
def bind_host : Host :=
  { nvidia_host with paths := ["/usr/lib/nvidia-440"] }

/-- The host bind_host on which mkdir of the gl directory below /snap/core/1
    is refused with EACCES. -/
def denied_host : Host :=
  { bind_host with
    mkdir_fault := fun p =>
      if p = "/snap/core/1/var/lib/snapd/lib/gl" then some Errno.EACCES else none }

/-- A host whose version file holds 0.1, so that the probed major is 0. -/
def zero_major_host : Host :=
  { empty_host with version_file := .content (bytes_of "0.1") }

/-- A host without the NVIDIA module and with the WSL2 libraries. -/
def wsl_host : Host :=
  { empty_host with paths := [SC_HOST_WSL_DIR] }

/-- A host with the driver loaded on which /var/lib/snapd/lib exists already
    and belongs to 1000:1000. -/
def shared_base_host : Host :=
  { nvidia_host with paths := [SC_EXTRA_LIB_DIR] }

/-- The host after the privileged base directory step of
    sc_mount_nvidia_driver: identity switched, /var/lib/snapd/lib ensured and
    chowned, identity switched back. -/
def base_ready (h : Host) : Host :=
  (sc_set_effective_identity h.identity
    (chown SC_EXTRA_LIB_DIR 0 0
      (sc_nonfatal_mkpath SC_EXTRA_LIB_DIR 0o755
        (sc_set_effective_identity sc_root_group_identity h).2).2).host).2

/-- A host with the driver 440.48.02 loaded whose only driver directory is the
    32 bit one, /usr/lib32/nvidia-440. -/
def lib32_only_host : Host :=
  { nvidia_host with paths := ["/usr/lib32/nvidia-440"] }

/-- A host with the driver 440.48.02 loaded and its canary library in the
    64 bit and the 32 bit triplet directories of multiarch_config. -/
def canary_host : Host :=
  { nvidia_host with
    paths := ["/usr/lib/x86_64-linux-gnu/libnvidia-glcore.so.440.48.02",
              "/usr/lib/i386-linux-gnu/libnvidia-glcore.so.440.48.02"] }

/-- The directory dst is in place on the host: a mkdir of it fails with
    EEXIST. -/
def dir_in_place (dst : String) (h : Host) : Prop :=
  h.mkdir_fault dst = some Errno.EEXIST ∨ (h.mkdir_fault dst = none ∧ access dst h = 0)

-- ---------------------------------------------------------------------------
-- Theorems: the driver version prober
-- ---------------------------------------------------------------------------

theorem set_zero_append_zeros (l : List Nat) (k : Nat) :
    (l ++ List.replicate (k + 1) 0).set l.length 0 = l ++ List.replicate (k + 1) 0 := by
  induction l with
  | nil => simp [List.replicate_succ]
  | cons a l ih => simp [ih]

theorem set_last_append_zeros (l : List Nat) (a : Nat) (t : List Nat) :
    ((l ++ [a]) ++ t).set l.length 0 = l ++ 0 :: t := by
  induction l with
  | nil => simp
  | cons b l ih => simp [ih]

theorem getD_last_append (l : List Nat) (a : Nat) (t : List Nat) :
    ((l ++ [a]) ++ t).getD l.length 0 = a := by
  induction l with
  | nil => simp
  | cons b l ih => simpa using ih

theorem strip_newline_concat (l : List Nat) (a : Nat) :
    strip_newline (l ++ [a]) = if a = 10 then l else l ++ [a] := by
  simp [strip_newline]

theorem c_str_append_zeros (l : List Nat) (k : Nat) :
    c_str (l ++ List.replicate (k + 1) 0) = c_str l := by
  induction l with
  | nil => simp [c_str, List.replicate_succ]
  | cons a l ih =>
    simp only [c_str] at ih
    by_cases h : a = 0 <;> simp [c_str, List.takeWhile_cons, h, ih]

theorem probe_content_short (bytes : List Nat) (h : bytes.length < 127) :
    sc_probe_nvidia_driver (.content bytes) =
      if (sscanf_major (c_str (raw_of bytes)) 0).1 != 1 then
        .die "cannot parse major version from nvidia driver version string"
      else .ok { major := (sscanf_major (c_str (raw_of bytes)) 0).2, raw := raw_of bytes } := by
  have hR : RAW_SIZE = 128 := rfl
  have htake : bytes.take (RAW_SIZE - 1) = bytes := by
    apply List.take_of_length_le; omega
  have hraw : (if (bytes.length : Int) > 0 && ((bytes ++ List.replicate (RAW_SIZE - bytes.length) 0).set bytes.length 0).getD (bytes.length - 1) 0 == 10
      then ((bytes ++ List.replicate (RAW_SIZE - bytes.length) 0).set bytes.length 0).set (bytes.length - 1) 0
      else ((bytes ++ List.replicate (RAW_SIZE - bytes.length) 0).set bytes.length 0)) = raw_of bytes := by
    obtain ⟨k, hk⟩ : ∃ k, RAW_SIZE - bytes.length = k + 1 := ⟨RAW_SIZE - bytes.length - 1, by omega⟩
    rw [hk, set_zero_append_zeros]
    rcases List.eq_nil_or_concat bytes with rfl | ⟨init, last, rfl⟩
    · simp [raw_of, strip_newline] at hk ⊢
      rw [hk]
    · rw [List.concat_eq_append] at hk ⊢
      have hlen : (init ++ [last]).length - 1 = init.length := by simp
      rw [hlen, getD_last_append, set_last_append_zeros]
      simp only [raw_of, strip_newline_concat]
      by_cases h10 : last = 10
      · subst h10
        have : RAW_SIZE - init.length = k + 2 := by simp at hk; omega
        simp [this, List.replicate_succ]
      · have : RAW_SIZE - (init.length + 1) = k + 1 := by simpa using hk
        simp [h10, this]
  simp only [sc_probe_nvidia_driver, htake, List.drop_replicate, Int.toNat_ofNat]
  rw [hraw]
  have h1 : ¬ ((bytes.length : Int) < 0) := by omega
  have h2 : (((bytes.length : Int) == ((RAW_SIZE - 1 : Nat) : Int)) && !decide (bytes.length < RAW_SIZE - 1)) = false := by
    have : bytes.length < RAW_SIZE - 1 := by omega
    simp [this]
  simp only [h1, h2]
  simp

theorem strip_newline_append_cons (a : List Nat) (b : Nat) (rest : List Nat) (hb : b ≠ 10) :
    strip_newline (a ++ b :: rest) = a ++ b :: strip_newline rest := by
  rcases List.eq_nil_or_concat rest with rfl | ⟨init, last, rfl⟩
  · have h := strip_newline_concat a b
    simp only [hb, if_false] at h
    simpa [strip_newline] using h
  · rw [List.concat_eq_append]
    have h1 : a ++ b :: (init ++ [last]) = (a ++ b :: init) ++ [last] := by simp
    rw [h1, strip_newline_concat, strip_newline_concat]
    by_cases h10 : last = 10 <;> simp [h10]

theorem strip_newline_initial (content : List Nat) :
    ∃ t, content = strip_newline content ++ t := by
  rcases List.eq_nil_or_concat content with rfl | ⟨init, last, rfl⟩
  · exact ⟨[], by simp [strip_newline]⟩
  · rw [List.concat_eq_append, strip_newline_concat]
    by_cases h10 : last = 10
    · exact ⟨[last], by simp [h10]⟩
    · exact ⟨[], by simp [h10]⟩

theorem strip_newline_length_le (content : List Nat) :
    (strip_newline content).length ≤ content.length := by
  obtain ⟨t, ht⟩ := strip_newline_initial content
  have := congrArg List.length ht
  simp at this
  omega

theorem c_str_initial (l : List Nat) : ∃ t, l = c_str l ++ t := by
  exact ⟨l.dropWhile (fun c => c != 0), by simp [c_str, List.takeWhile_append_dropWhile]⟩

theorem c_str_of_nonzero (l : List Nat) (h : ∀ b ∈ l, b ≠ 0) : c_str l = l := by
  induction l with
  | nil => simp [c_str]
  | cons a l ih =>
    have ha : a ≠ 0 := h a (by simp)
    have hl : ∀ b ∈ l, b ≠ 0 := fun b hb => h b (by simp [hb])
    simp only [c_str] at ih
    simp [c_str, List.takeWhile_cons, ha, ih hl]

theorem c_str_append_of_nonzero (a l : List Nat) (h : ∀ b ∈ a, b ≠ 0) :
    c_str (a ++ l) = a ++ c_str l := by
  induction a with
  | nil => simp
  | cons x a ih =>
    have hx : x ≠ 0 := h x (by simp)
    have ha : ∀ b ∈ a, b ≠ 0 := fun b hb => h b (by simp [hb])
    simp only [c_str] at ih
    simp [c_str, List.takeWhile_cons, hx, ih ha]

theorem c_str_raw_of (bytes : List Nat) (h : bytes.length < 127) :
    c_str (raw_of bytes) = c_str (strip_newline bytes) := by
  have hR : RAW_SIZE = 128 := rfl
  have hle := strip_newline_length_le bytes
  obtain ⟨k, hk⟩ : ∃ k, RAW_SIZE - (strip_newline bytes).length = k + 1 :=
    ⟨RAW_SIZE - (strip_newline bytes).length - 1, by omega⟩
  rw [raw_of, hk, c_str_append_zeros]

theorem isdigit_not_space (d : Nat) (h : isdigit d = true) : isspace d = false := by
  simp [isdigit, isspace] at h ⊢
  omega

theorem takeWhile_digits (ds : List Nat) (c : Nat) (tail : List Nat)
    (hdig : ∀ d ∈ ds, isdigit d = true) (hc : isdigit c = false) :
    (ds ++ c :: tail).takeWhile isdigit = ds := by
  induction ds with
  | nil => simp [List.takeWhile_cons, hc]
  | cons d ds ih =>
    have hd : isdigit d = true := hdig d (by simp)
    have hds : ∀ x ∈ ds, isdigit x = true := fun x hx => hdig x (by simp [hx])
    simp [List.takeWhile_cons, hd, ih hds]

theorem sscanf_major_of_integer (sign ds : List Nat) (c : Nat) (tail : List Nat) (m : Int)
    (hsign : sign = [] ∨ sign = [45] ∨ sign = [43])
    (hne : ds ≠ []) (hdig : ∀ d ∈ ds, isdigit d = true) (hc : isdigit c = false) :
    sscanf_major (sign ++ ds ++ c :: tail) m = (1, to_int (clamp_long (signed_value sign ds))) := by
  obtain ⟨d, ds', rfl⟩ := List.exists_cons_of_ne_nil hne
  have hd : isdigit d = true := hdig d (by simp)
  have hsp := isdigit_not_space d hd
  have htw := takeWhile_digits (d :: ds') c tail hdig hc
  have hd45 : d ≠ 45 := by intro h; subst h; simp [isdigit] at hd
  have hd43 : d ≠ 43 := by intro h; subst h; simp [isdigit] at hd
  simp only [List.cons_append] at htw
  rcases hsign with rfl | rfl | rfl
  · simp only [sscanf_major, List.nil_append, List.cons_append, List.dropWhile_cons, hsp]
    simp [hd45, hd43, htw, hd, signed_value]
  · simp only [sscanf_major, List.nil_append, List.cons_append, List.dropWhile_cons]
    simp [isspace, htw, hd, signed_value]
  · simp only [sscanf_major, List.nil_append, List.cons_append, List.dropWhile_cons]
    simp [isspace, htw, hd, signed_value]

theorem to_int_clamp_long_of_fits (n : Int) (hlo : INT_MIN ≤ n) (hhi : n ≤ INT_MAX) :
    to_int (clamp_long n) = n := by
  simp only [INT_MIN, INT_MAX] at hlo hhi
  have h1 : ¬ (n > LONG_MAX) := by simp only [LONG_MAX]; omega
  have h2 : ¬ (n < LONG_MIN) := by simp only [LONG_MIN]; omega
  simp only [clamp_long, h1, h2, if_false, to_int]
  omega

theorem sscanf_major_leading (s : List Nat) (m : Int) (h : (sscanf_major s m).1 = 1) :
    has_leading_integer s = true := by
  unfold sscanf_major at h
  unfold has_leading_integer
  cases hdw : s.dropWhile isspace with
  | nil => simp [hdw] at h
  | cons c rest =>
    simp only [hdw] at h ⊢
    by_cases hs : c = 45 ∨ c = 43
    · have hs' : (c == 45 || c == 43) = true := by
        rcases hs with rfl | rfl <;> simp
      simp only [hs', if_true] at h
      simp only [hs, if_true]
      cases rest with
      | nil => simp at h
      | cons d tl =>
        by_cases hd : isdigit d = true
        · simpa using hd
        · simp [List.takeWhile_cons, hd] at h
    · have hs' : (c == 45 || c == 43) = false := by
        simp only [not_or] at hs
        simp [hs.1, hs.2]
      simp only [hs', if_false] at h
      simp only [hs, if_false]
      by_cases hd : isdigit c = true
      · exact hd
      · simp [List.takeWhile_cons, hd] at h

theorem has_leading_integer_append (p t : List Nat) (h : has_leading_integer p = true) :
    has_leading_integer (p ++ t) = true := by
  induction p with
  | nil => simp [has_leading_integer] at h
  | cons a p ih =>
    by_cases hsp : isspace a = true
    · have e1 : has_leading_integer (a :: p) = has_leading_integer p := by
        simp [has_leading_integer, List.dropWhile_cons, hsp]
      have e2 : has_leading_integer (a :: p ++ t) = has_leading_integer (p ++ t) := by
        simp [has_leading_integer, List.dropWhile_cons, hsp]
      rw [e2]; exact ih (e1 ▸ h)
    · simp only [has_leading_integer, List.cons_append, List.dropWhile_cons, hsp] at h ⊢
      simp only [Bool.false_eq_true, if_false] at h ⊢
      by_cases hs : a = 45 ∨ a = 43
      · simp only [hs, if_true] at h ⊢
        cases p with
        | nil => simp at h
        | cons d tl => simpa using h
      · simp only [hs, if_false] at h ⊢
        exact h

theorem probe_content_long (bytes : List Nat) (h : 127 ≤ bytes.length) :
    sc_probe_nvidia_driver (.content bytes) =
      .die "cannot fit entire nvidia driver version string" := by
  have hR : RAW_SIZE = 128 := rfl
  have hlen : (bytes.take (RAW_SIZE - 1)).length = 127 := by
    rw [List.length_take]; omega
  have h2 : ¬ (bytes.length < RAW_SIZE - 1) := by omega
  simp only [sc_probe_nvidia_driver, hlen, h2]
  simp [hR]

/-- Claim C1: a version file shorter than 127 bytes that begins with a decimal
    integer n fitting in an int (an optional sign and a run of digits) followed
    by a dot is probed without fatal error; major is n, the buffer raw holds the
    content with one trailing newline removed, padded with NUL bytes, and when
    the content has no NUL byte the string in raw is exactly that stripped
    content, whatever follows the dot. -/
theorem probe_major_and_raw (sign ds rest : List Nat)
    (hsign : sign = [] ∨ sign = [45] ∨ sign = [43])
    (hne : ds ≠ []) (hdig : ∀ d ∈ ds, isdigit d = true)
    (hlo : INT_MIN ≤ signed_value sign ds) (hhi : signed_value sign ds ≤ INT_MAX)
    (hlen : (sign ++ ds ++ 46 :: rest).length < 127) :
    sc_probe_nvidia_driver (.content (sign ++ ds ++ 46 :: rest)) =
        .ok { major := signed_value sign ds,
              raw := strip_newline (sign ++ ds ++ 46 :: rest) ++
                List.replicate (128 - (strip_newline (sign ++ ds ++ 46 :: rest)).length) 0 }
      ∧ ((∀ b ∈ sign ++ ds ++ 46 :: rest, b ≠ 0) →
          c_str (strip_newline (sign ++ ds ++ 46 :: rest) ++
                List.replicate (128 - (strip_newline (sign ++ ds ++ 46 :: rest)).length) 0)
            = strip_newline (sign ++ ds ++ 46 :: rest)) := by
  have hstrip := strip_newline_append_cons (sign ++ ds) 46 rest (by decide)
  have hnz : ∀ b ∈ sign ++ ds ++ [46], b ≠ 0 := by
    intro b hb h0
    subst h0
    simp only [List.mem_append, List.mem_singleton] at hb
    rcases hb with (hb | hb) | hb
    · rcases hsign with rfl | rfl | rfl <;> simp at hb
    · have := hdig 0 hb
      simp [isdigit] at this
    · simp at hb
  have hc : c_str (raw_of (sign ++ ds ++ 46 :: rest)) =
      sign ++ ds ++ 46 :: c_str (strip_newline rest) := by
    rw [c_str_raw_of _ hlen, hstrip]
    have e : sign ++ ds ++ 46 :: strip_newline rest = (sign ++ ds ++ [46]) ++ strip_newline rest := by
      simp
    rw [e, c_str_append_of_nonzero _ _ hnz]
    simp
  have hs := sscanf_major_of_integer sign ds 46 (c_str (strip_newline rest)) 0 hsign hne hdig
    (by decide)
  constructor
  · rw [probe_content_short _ hlen, hc, hs, to_int_clamp_long_of_fits _ hlo hhi]
    simp [raw_of, RAW_SIZE]
  · intro hall
    have hall' : ∀ b ∈ strip_newline (sign ++ ds ++ 46 :: rest), b ≠ 0 := by
      intro b hb
      obtain ⟨t, ht⟩ := strip_newline_initial (sign ++ ds ++ 46 :: rest)
      apply hall
      rw [ht]
      exact List.mem_append_left _ hb
    have := c_str_raw_of _ hlen
    simp only [raw_of, RAW_SIZE] at this
    rw [this, c_str_of_nonzero _ hall']

/-- Witness of C1: the content 440.48.02 followed by a newline gives major 440
    and raw 440.48.02. -/
theorem probe_major_and_raw_witness :
    sc_probe_nvidia_driver (.content (bytes_of "440.48.02\n")) =
        .ok { major := 440, raw := bytes_of "440.48.02" ++ List.replicate 119 0 }
      ∧ c_str (bytes_of "440.48.02" ++ List.replicate 119 0) = bytes_of "440.48.02" := by
  have h := probe_major_and_raw [] (bytes_of "440") (bytes_of "48.02\n") (by decide) (by decide)
    (by decide) (by decide) (by decide) (by decide)
  refine ⟨?_, ?_⟩
  · exact h.1
  · exact h.2 (by decide)

/-- Claim C2: a version file that exists and is readable but has no leading
    integer (after optional white space and an optional sign there is no
    decimal digit; the empty content and a lone newline are such contents) makes
    sc_probe_nvidia_driver die, whatever its length. -/
theorem probe_dies_without_leading_integer (content : List Nat)
    (h : has_leading_integer content = false) :
    ∃ msg, sc_probe_nvidia_driver (.content content) = .die msg := by
  by_cases hlen : content.length < 127
  · refine ⟨"cannot parse major version from nvidia driver version string", ?_⟩
    rw [probe_content_short _ hlen]
    have hne : (sscanf_major (c_str (raw_of content)) 0).1 ≠ 1 := by
      intro h1
      have hl := sscanf_major_leading _ _ h1
      rw [c_str_raw_of _ hlen] at hl
      obtain ⟨t1, ht1⟩ := c_str_initial (strip_newline content)
      obtain ⟨t2, ht2⟩ := strip_newline_initial content
      have h2 := has_leading_integer_append _ t1 hl
      rw [← ht1] at h2
      have h3 := has_leading_integer_append _ t2 h2
      rw [← ht2] at h3
      rw [h] at h3
      exact Bool.noConfusion h3
    simp [hne]
  · exact ⟨_, probe_content_long content (by omega)⟩

/-- Witness of C2: the empty content and the content of one newline have no
    leading integer and the probe dies on them. -/
theorem probe_dies_without_leading_integer_witness :
    (has_leading_integer [] = false ∧ ∃ msg, sc_probe_nvidia_driver (.content []) = .die msg)
      ∧ (has_leading_integer (bytes_of "\n") = false ∧
          ∃ msg, sc_probe_nvidia_driver (.content (bytes_of "\n")) = .die msg) :=
  ⟨⟨by decide, probe_dies_without_leading_integer [] (by decide)⟩,
   ⟨by decide, probe_dies_without_leading_integer (bytes_of "\n") (by decide)⟩⟩

theorem has_leading_integer_form (s : List Nat) (h : has_leading_integer s = true) :
    ∃ ws sign d tail, s = ws ++ sign ++ d :: tail ∧ (∀ c ∈ ws, isspace c = true)
      ∧ (sign = [] ∨ sign = [45] ∨ sign = [43]) ∧ isdigit d = true := by
  induction s with
  | nil => simp [has_leading_integer] at h
  | cons a s ih =>
    by_cases hsp : isspace a = true
    · have e1 : has_leading_integer (a :: s) = has_leading_integer s := by
        simp [has_leading_integer, List.dropWhile_cons, hsp]
      obtain ⟨ws, sign, d, tail, hs, hws, hsign, hd⟩ := ih (e1 ▸ h)
      refine ⟨a :: ws, sign, d, tail, by simp [hs], ?_, hsign, hd⟩
      intro c hc
      rcases List.mem_cons.mp hc with rfl | hc
      · exact hsp
      · exact hws c hc
    · simp only [has_leading_integer, List.dropWhile_cons, hsp] at h
      simp only [Bool.false_eq_true, if_false] at h
      by_cases hs : a = 45 ∨ a = 43
      · simp only [hs, if_true] at h
        cases s with
        | nil => simp at h
        | cons d tl =>
          refine ⟨[], [a], d, tl, by simp, by simp, ?_, by simpa using h⟩
          rcases hs with rfl | rfl
          · exact Or.inr (Or.inl rfl)
          · exact Or.inr (Or.inr rfl)
      · simp only [hs, if_false] at h
        exact ⟨[], [], a, s, by simp, by simp, Or.inl rfl, h⟩

theorem has_leading_integer_of_form (ws sign : List Nat) (d : Nat) (tail : List Nat)
    (hws : ∀ c ∈ ws, isspace c = true) (hsign : sign = [] ∨ sign = [45] ∨ sign = [43])
    (hd : isdigit d = true) : has_leading_integer (ws ++ sign ++ d :: tail) = true := by
  induction ws with
  | nil =>
    have hsp := isdigit_not_space d hd
    have hd45 : d ≠ 45 := by intro h; subst h; simp [isdigit] at hd
    have hd43 : d ≠ 43 := by intro h; subst h; simp [isdigit] at hd
    rcases hsign with rfl | rfl | rfl
    · simp [has_leading_integer, List.dropWhile_cons, hsp, hd45, hd43, hd]
    · simp [has_leading_integer, List.dropWhile_cons, isspace, hd]
    · simp [has_leading_integer, List.dropWhile_cons, isspace, hd]
  | cons a ws ih =>
    have ha : isspace a = true := hws a (by simp)
    have hws2 : ∀ c ∈ ws, isspace c = true := fun c hc => hws c (by simp [hc])
    have e : has_leading_integer (a :: ws ++ sign ++ d :: tail)
        = has_leading_integer (ws ++ sign ++ d :: tail) := by
      simp [has_leading_integer, List.dropWhile_cons, ha]
    rw [e]
    exact ih hws2

theorem sscanf_major_of_leading (s : List Nat) (m : Int) (h : has_leading_integer s = true) :
    (sscanf_major s m).1 = 1 := by
  obtain ⟨ws, sign, d, tail, hs, hws, hsign, hd⟩ := has_leading_integer_form s h
  subst hs
  have hdw : ∀ (l : List Nat), (∀ c ∈ l, isspace c = true) → ∀ (r : List Nat),
      (l ++ r).dropWhile isspace = r.dropWhile isspace := by
    intro l
    induction l with
    | nil => intro _ r; rfl
    | cons a l ih =>
      intro hl r
      have ha : isspace a = true := hl a (by simp)
      simp only [List.cons_append, List.dropWhile_cons, ha, if_true]
      exact ih (fun c hc => hl c (by simp [hc])) r
  have hsp := isdigit_not_space d hd
  have hd45 : d ≠ 45 := by intro h; subst h; simp [isdigit] at hd
  have hd43 : d ≠ 43 := by intro h; subst h; simp [isdigit] at hd
  unfold sscanf_major
  rw [List.append_assoc, hdw ws hws]
  rcases hsign with rfl | rfl | rfl
  · simp [List.dropWhile_cons, hsp, hd45, hd43, List.takeWhile_cons, hd]
  · simp [List.dropWhile_cons, isspace, List.takeWhile_cons, hd]
  · simp [List.dropWhile_cons, isspace, List.takeWhile_cons, hd]

theorem has_leading_integer_c_str_strip (content : List Nat)
    (h : has_leading_integer content = true) :
    has_leading_integer (c_str (strip_newline content)) = true := by
  obtain ⟨ws, sign, d, tail, hs, hws, hsign, hd⟩ := has_leading_integer_form content h
  subst hs
  have hd10 : d ≠ 10 := by intro h; subst h; simp [isdigit] at hd
  rw [strip_newline_append_cons (ws ++ sign) d tail hd10]
  have hnz : ∀ b ∈ ws ++ sign ++ [d], b ≠ 0 := by
    intro b hb h0
    subst h0
    simp only [List.mem_append, List.mem_singleton] at hb
    rcases hb with (hb | hb) | hb
    · have := hws 0 hb
      simp [isspace] at this
    · rcases hsign with rfl | rfl | rfl <;> simp at hb
    · subst hb
      simp [isdigit] at hd
  have e : ws ++ sign ++ d :: strip_newline tail = (ws ++ sign ++ [d]) ++ strip_newline tail := by
    simp
  rw [e, c_str_append_of_nonzero _ _ hnz]
  have e2 : ws ++ sign ++ [d] ++ c_str (strip_newline tail)
      = ws ++ sign ++ d :: c_str (strip_newline tail) := by simp
  rw [e2]
  exact has_leading_integer_of_form ws sign d _ hws hsign hd

/-- For a version file shorter than 127 bytes the probe dies exactly when the
    content has no leading integer: optional white space, an optional sign and
    a decimal digit are what the conversion needs, and nothing after the digits
    matters, not even the dot. -/
theorem probe_short_fatal_iff (content : List Nat) (hlen : content.length < 127) :
    (∃ msg, sc_probe_nvidia_driver (.content content) = .die msg)
      ↔ has_leading_integer content = false := by
  constructor
  · rintro ⟨msg, hdie⟩
    by_contra hl
    have hl' : has_leading_integer content = true := by
      cases hh : has_leading_integer content with
      | true => rfl
      | false => exact absurd hh hl
    have h1 := sscanf_major_of_leading (c_str (raw_of content)) 0
      (by rw [c_str_raw_of _ hlen]; exact has_leading_integer_c_str_strip content hl')
    rw [probe_content_short _ hlen] at hdie
    simp [h1] at hdie
  · intro hl
    by_contra hnd
    have hne : (sscanf_major (c_str (raw_of content)) 0).1 = 1 := by
      by_contra h1
      apply hnd
      refine ⟨"cannot parse major version from nvidia driver version string", ?_⟩
      rw [probe_content_short _ hlen]
      simp [h1]
    have h2 := sscanf_major_leading _ _ hne
    rw [c_str_raw_of _ hlen] at h2
    obtain ⟨t1, ht1⟩ := c_str_initial (strip_newline content)
    obtain ⟨t2, ht2⟩ := strip_newline_initial content
    have h3 := has_leading_integer_append _ t1 h2
    rw [← ht1] at h3
    have h4 := has_leading_integer_append _ t2 h3
    rw [← ht2] at h4
    rw [hl] at h4
    exact Bool.noConfusion h4

/-- The probe at a content with leading white space and a sign, and at a
    content without a dot: both are read. -/
theorem probe_short_fatal_iff_witness :
    ((∃ msg, sc_probe_nvidia_driver (.content (bytes_of " -12.5\n")) = .die msg)
        ↔ has_leading_integer (bytes_of " -12.5\n") = false)
      ∧ sc_probe_nvidia_driver (.content (bytes_of " -12.5\n"))
          = .ok { major := -12, raw := bytes_of " -12.5" ++ List.replicate 122 0 }
      ∧ sc_probe_nvidia_driver (.content (bytes_of "440\n"))
          = .ok { major := 440, raw := bytes_of "440" ++ List.replicate 125 0 } :=
  ⟨probe_short_fatal_iff (bytes_of " -12.5\n") (by decide), by decide, by decide⟩

/-- A version file of 127 bytes or more is fatal whatever it holds, also one of
    exactly 127 bytes, which would fit the buffer of 128 bytes with its NUL. -/
theorem probe_long_content_fatal (content : List Nat) (hlen : 127 ≤ content.length) :
    sc_probe_nvidia_driver (.content content)
      = .die "cannot fit entire nvidia driver version string" := by
  have hR : RAW_SIZE = 128 := rfl
  have hl : (content.take (RAW_SIZE - 1)).length = 127 := by
    rw [List.length_take]; omega
  have h2 : ¬ (content.length < RAW_SIZE - 1) := by omega
  simp only [sc_probe_nvidia_driver, hl, h2]
  simp [hR]

/-- A content of 127 digits dies at the size check. -/
theorem probe_long_content_fatal_witness :
    127 ≤ (List.replicate 127 49).length
      ∧ sc_probe_nvidia_driver (.content (List.replicate 127 49))
          = .die "cannot fit entire nvidia driver version string" :=
  ⟨by simp, probe_long_content_fatal (List.replicate 127 49) (by simp)⟩

/-- An absent version file is no error: the probe returns major 0 and an
    empty raw string. A file that exists and cannot be opened is fatal. -/
theorem probe_absent_or_unreadable :
    sc_probe_nvidia_driver .absent = .ok { major := 0, raw := List.replicate 128 0 }
      ∧ c_str (List.replicate 128 0) = []
      ∧ sc_probe_nvidia_driver .unreadable
          = .die "cannot open file describing nvidia driver version" := by
  decide

-- ---------------------------------------------------------------------------
-- Theorems: traces and system calls
-- ---------------------------------------------------------------------------

theorem extends_with_refl (Q : Op → Prop) (h : Host) : extends_with Q h h :=
  ⟨[], by simp, by simp⟩

theorem extends_with_trans {Q : Op → Prop} {h h1 h2 : Host}
    (a : extends_with Q h h1) (b : extends_with Q h1 h2) : extends_with Q h h2 := by
  obtain ⟨l1, e1, q1⟩ := a
  obtain ⟨l2, e2, q2⟩ := b
  refine ⟨l1 ++ l2, by rw [e2, e1, List.append_assoc], ?_⟩
  intro op hop
  rcases List.mem_append.mp hop with hop | hop
  · exact q1 op hop
  · exact q2 op hop

theorem extends_with_mono {Q R : Op → Prop} {h h1 : Host} (hQR : ∀ op, Q op → R op)
    (a : extends_with Q h h1) : extends_with R h h1 := by
  obtain ⟨l, e, q⟩ := a
  exact ⟨l, e, fun op hop => hQR op (q op hop)⟩

theorem extends_with_one {Q : Op → Prop} {h h1 : Host} (op : Op)
    (e : h1.trace = h.trace ++ [op]) (q : Q op) : extends_with Q h h1 :=
  ⟨[op], e, by simpa using q⟩

theorem extends_with_andThen {α β : Type} {Q : Op → Prop} {h : Host} (o : Outcome α)
    (k : α → Host → Outcome β) (ho : extends_with Q h o.host)
    (hk : ∀ a h1, o = .ret a h1 → extends_with Q h1 (k a h1).host) :
    extends_with Q h (o.andThen k).host := by
  cases o with
  | ret a h1 => exact extends_with_trans ho (hk a h1 rfl)
  | died msg h1 => exact ho

theorem set_identity_extends {Q : Op → Prop} (identity : sc_identity) (h : Host)
    (q : Q (.set_effective_identity identity)) :
    extends_with Q h (sc_set_effective_identity identity h).2 :=
  extends_with_one _ rfl q

theorem mkdir_extends {Q : Op → Prop} (path : String) (mode : Nat) (h : Host)
    (q : ∀ res, Q (.mkdir path mode res)) : extends_with Q h (mkdir path mode h).host := by
  unfold mkdir
  split
  · exact extends_with_one _ rfl (q _)
  · split
    · exact extends_with_one _ rfl (q _)
    · exact extends_with_one _ rfl (q _)

theorem chown_extends {Q : Op → Prop} (path : String) (uid gid : Nat) (h : Host)
    (q : ∀ res, Q (.chown path uid gid res)) : extends_with Q h (chown path uid gid h).host := by
  unfold chown
  split
  · exact extends_with_one _ rfl (q _)
  · exact extends_with_one _ rfl (q _)

theorem mount_extends {Q : Op → Prop} (src dst : String) (flags : Nat) (h : Host)
    (q : ∀ res, Q (.mount src dst flags res)) : extends_with Q h (mount src dst flags h).host := by
  unfold mount
  split
  · exact extends_with_one _ rfl (q _)
  · exact extends_with_one _ rfl (q _)

theorem mkpath_extends {Q : Op → Prop} (path : String) (mode : Nat) (h : Host)
    (q : ∀ res, Q (.mkpath path mode res)) :
    extends_with Q h (sc_nonfatal_mkpath path mode h).2 := by
  unfold sc_nonfatal_mkpath
  split
  · exact extends_with_one _ rfl (q _)
  · split
    · exact extends_with_one _ rfl (q _)
    · exact extends_with_one _ rfl (q _)

theorem populate_fold_extends {Q : Op → Prop} (dir : String) (globs : List String)
    (sources : List String) (h : Host) (q : ∀ src, Q (.populate dir src globs)) :
    extends_with Q h
      (sources.foldl (fun hs src => sc_populate_libgl_with_hostfs_symlinks dir src globs hs) h) := by
  induction sources generalizing h with
  | nil => exact extends_with_refl Q h
  | cons s rest ih =>
    simp only [List.foldl_cons]
    exact extends_with_trans (extends_with_one _ rfl (q s)) (ih _)

-- identity kept by system calls

theorem mkdir_identity (path : String) (mode : Nat) (h : Host) :
    (mkdir path mode h).host.identity = h.identity := by
  unfold mkdir
  split
  · rfl
  · split <;> rfl

theorem chown_identity (path : String) (uid gid : Nat) (h : Host) :
    (chown path uid gid h).host.identity = h.identity := by
  unfold chown
  split <;> rfl

theorem mount_identity (src dst : String) (flags : Nat) (h : Host) :
    (mount src dst flags h).host.identity = h.identity := by
  unfold mount
  split <;> rfl

theorem mkpath_identity (path : String) (mode : Nat) (h : Host) :
    (sc_nonfatal_mkpath path mode h).2.identity = h.identity := by
  unfold sc_nonfatal_mkpath
  split
  · rfl
  · split <;> rfl

theorem populate_fold_identity (dir : String) (globs : List String)
    (sources : List String) (h : Host) :
    (sources.foldl (fun hs src => sc_populate_libgl_with_hostfs_symlinks dir src globs hs)
      h).identity = h.identity := by
  induction sources generalizing h with
  | nil => rfl
  | cons s rest ih =>
    simp only [List.foldl_cons]
    rw [ih]
    rfl

-- ---------------------------------------------------------------------------
-- Theorems: the calls each function makes, and the identity on return
-- ---------------------------------------------------------------------------

theorem glob_files_extends (rootfs_dir : String) (sources : List String) (tgt_dir : String)
    (globs : List String) (h : Host) :
    extends_with (farm_op (rootfs_dir ++ tgt_dir) globs) h
      (sc_mkdir_and_mount_and_glob_files rootfs_dir sources tgt_dir globs h).host := by
  have e1 := set_identity_extends (Q := farm_op (rootfs_dir ++ tgt_dir) globs)
    sc_root_group_identity h trivial
  have e2 := mkdir_extends (Q := farm_op (rootfs_dir ++ tgt_dir) globs) (rootfs_dir ++ tgt_dir)
    0o755 (sc_set_effective_identity sc_root_group_identity h).2 (fun _ => ⟨rfl, rfl⟩)
  have e12 := extends_with_trans e1 e2
  simp only [sc_mkdir_and_mount_and_glob_files]
  split
  · exact e12
  · apply extends_with_andThen
    · split
      · have e3 := chown_extends (Q := farm_op (rootfs_dir ++ tgt_dir) globs)
          (rootfs_dir ++ tgt_dir) 0 0
          (mkdir (rootfs_dir ++ tgt_dir) 0o755
            (sc_set_effective_identity sc_root_group_identity h).2).host
          (fun _ => ⟨rfl, rfl, rfl⟩)
        split
        · exact extends_with_trans e12 e3
        · exact extends_with_trans e12 e3
      · exact e12
    · intro _ h2 _
      exact extends_with_trans (set_identity_extends _ h2 trivial)
        (populate_fold_extends _ _ _ _ (fun _ => ⟨rfl, rfl⟩))

theorem glob_files_identity (rootfs_dir : String) (sources : List String) (tgt_dir : String)
    (globs : List String) (h h2 : Host)
    (hr : sc_mkdir_and_mount_and_glob_files rootfs_dir sources tgt_dir globs h = .ret () h2) :
    h2.identity = h.identity := by
  simp only [sc_mkdir_and_mount_and_glob_files] at hr
  split at hr
  · exact Outcome.noConfusion hr
  · split at hr
    · split at hr
      · exact Outcome.noConfusion hr
      · simp only [Outcome.andThen, Outcome.ret.injEq, true_and] at hr
        rw [← hr, populate_fold_identity]
        rfl
    · simp only [Outcome.andThen, Outcome.ret.injEq, true_and] at hr
      rw [← hr, populate_fold_identity]
      rfl

theorem bind_extends (rootfs_dir src_dir tgt_dir : String) (h : Host) :
    extends_with (bind_op (rootfs_dir ++ tgt_dir)) h
      (sc_mkdir_and_mount_and_bind rootfs_dir src_dir tgt_dir h).host := by
  have e1 := set_identity_extends (Q := bind_op (rootfs_dir ++ tgt_dir))
    sc_root_group_identity h trivial
  have e2 := mkdir_extends (Q := bind_op (rootfs_dir ++ tgt_dir)) (rootfs_dir ++ tgt_dir)
    0o755 (sc_set_effective_identity sc_root_group_identity h).2 (fun _ => ⟨rfl, rfl⟩)
  have e12 := extends_with_trans e1 e2
  simp only [sc_mkdir_and_mount_and_bind]
  split
  · exact extends_with_refl _ _
  · split
    · exact extends_with_refl _ _
    · split
      · exact extends_with_refl _ _
      · split
        · exact extends_with_refl _ _
        · rename_i src _ _ dst hdst
          have hd : dst = rootfs_dir ++ tgt_dir := by
            simp only [sc_must_snprintf] at hdst
            split at hdst
            · exact (Option.some.inj hdst).symm
            · exact Option.noConfusion hdst
          subst hd
          split
          · exact extends_with_refl _ _
          · split
            · exact e12
            · apply extends_with_andThen
              · split
                · have e3 := chown_extends (Q := bind_op (rootfs_dir ++ tgt_dir))
                    (rootfs_dir ++ tgt_dir) 0 0
                    (mkdir (rootfs_dir ++ tgt_dir) 0o755
                      (sc_set_effective_identity sc_root_group_identity h).2).host
                    (fun _ => ⟨rfl, rfl, rfl⟩)
                  split
                  · exact extends_with_trans e12 e3
                  · exact extends_with_trans e12 e3
                · exact e12
              · intro _ h2 _
                have e4 := set_identity_extends (Q := bind_op (rootfs_dir ++ tgt_dir))
                  h.identity h2 trivial
                have e5 := mount_extends (Q := bind_op (rootfs_dir ++ tgt_dir)) src
                  (rootfs_dir ++ tgt_dir) MS_BIND (sc_set_effective_identity h.identity h2).2
                  (fun _ => ⟨rfl, rfl⟩)
                split
                · exact extends_with_trans e4 e5
                · exact extends_with_trans e4 e5

theorem returns_with_identity_andThen {α β : Type} {h : Host} (o : Outcome α)
    (k : α → Host → Outcome β) (ho : returns_with_identity h o)
    (hk : ∀ a h1, o = .ret a h1 → returns_with_identity h1 (k a h1)) :
    returns_with_identity h (o.andThen k) := by
  cases o with
  | ret a h1 =>
    intro b h2 hr
    have := hk a h1 rfl b h2 hr
    rw [this]
    exact ho a h1 rfl
  | died msg h1 =>
    intro b h2 hr
    exact Outcome.noConfusion hr

theorem returns_with_identity_ret {α : Type} (h : Host) (a : α) :
    returns_with_identity h (Outcome.ret a h) := by
  intro b h2 hr
  cases hr
  rfl

theorem returns_with_identity_died {α : Type} (h h1 : Host) (msg : String) :
    returns_with_identity h (Outcome.died msg h1 : Outcome α) := by
  intro b h2 hr
  exact Outcome.noConfusion hr

theorem glob_files_returns_with_identity (rootfs_dir : String) (sources : List String)
    (tgt_dir : String) (globs : List String) (h : Host) :
    returns_with_identity h
      (sc_mkdir_and_mount_and_glob_files rootfs_dir sources tgt_dir globs h) := by
  intro a h2 hr
  exact glob_files_identity rootfs_dir sources tgt_dir globs h h2 hr

theorem bind_returns_with_identity (rootfs_dir src_dir tgt_dir : String) (h : Host) :
    returns_with_identity h (sc_mkdir_and_mount_and_bind rootfs_dir src_dir tgt_dir h) := by
  intro a h2 hr
  simp only [sc_mkdir_and_mount_and_bind] at hr
  split at hr
  · exact Outcome.noConfusion hr
  · split at hr
    · cases hr; rfl
    · split at hr
      · exact Outcome.noConfusion hr
      · split at hr
        · exact Outcome.noConfusion hr
        · split at hr
          · cases hr; rfl
          · split at hr
            · exact Outcome.noConfusion hr
            · split at hr
              · split at hr
                · exact Outcome.noConfusion hr
                · simp only [Outcome.andThen] at hr
                  split at hr
                  · exact Outcome.noConfusion hr
                  · cases hr
                    rw [mount_identity]
                    rfl
              · simp only [Outcome.andThen] at hr
                split at hr
                · exact Outcome.noConfusion hr
                · cases hr
                  rw [mount_identity]
                  rfl

theorem is_driver_in_dir_host (dir : String) (h : Host) :
    (sc_mount_nvidia_is_driver_in_dir dir h).host = h := by
  simp only [sc_mount_nvidia_is_driver_in_dir]
  split
  · rfl
  · split
    · rfl
    · split
      · rfl
      · split <;> rfl

theorem is_driver_in_dir_ret (dir : String) (h h1 : Host) (found : Int)
    (hr : sc_mount_nvidia_is_driver_in_dir dir h = .ret found h1) : h1 = h := by
  have := is_driver_in_dir_host dir h
  rw [hr] at this
  exact this

theorem multiarch_extends (cfg : Config) (rootfs_dir : String) (globs : List String)
    (h : Host) :
    extends_with (nvidia_op rootfs_dir globs) h
      (sc_mount_nvidia_driver_multiarch cfg rootfs_dir globs h).host := by
  have hbind : ∀ h0 : Host, extends_with (nvidia_op rootfs_dir globs) h0
      ((sc_mkdir_and_mount_and_bind rootfs_dir "/usr/lib/nvidia" SC_LIBGL_DIR h0).andThen
        fun _ h1 =>
          sc_mkdir_and_mount_and_bind rootfs_dir "/usr/lib32/nvidia" SC_LIBGL32_DIR h1).host := by
    intro h0
    apply extends_with_andThen
    · exact extends_with_mono (fun _ q => Or.inr (Or.inl q)) (bind_extends _ _ _ _)
    · intro _ h1 _
      exact extends_with_mono (fun _ q => Or.inr (Or.inr (Or.inl q))) (bind_extends _ _ _ _)
  have hfarm : ∀ (srcs : List String) (h0 : Host), extends_with (nvidia_op rootfs_dir globs) h0
      (sc_mkdir_and_mount_and_glob_files rootfs_dir srcs SC_LIBGL_DIR globs h0).host :=
    fun srcs h0 => extends_with_mono (fun _ q => Or.inr (Or.inr (Or.inr (Or.inl q))))
      (glob_files_extends _ _ _ _ _)
  have hfarm32 : ∀ (srcs : List String) (h0 : Host),
      extends_with (nvidia_op rootfs_dir globs) h0
        (sc_mkdir_and_mount_and_glob_files rootfs_dir srcs SC_LIBGL32_DIR globs h0).host :=
    fun srcs h0 => extends_with_mono
      (fun _ q => Or.inr (Or.inr (Or.inr (Or.inr (Or.inl q))))) (glob_files_extends _ _ _ _ _)
  simp only [sc_mount_nvidia_driver_multiarch]
  split
  · apply extends_with_andThen
    · rw [is_driver_in_dir_host]; exact extends_with_refl _ _
    · intro found h0 _
      split
      · apply extends_with_andThen
        · exact hfarm _ _
        · intro _ h1 _
          split
          · apply extends_with_andThen
            · rw [is_driver_in_dir_host]; exact extends_with_refl _ _
            · intro found32 h2 _
              split
              · exact hfarm32 _ _
              · exact extends_with_refl _ _
          · exact extends_with_refl _ _
      · exact hbind h0
  · exact hbind h

theorem multiarch_returns_with_identity (cfg : Config) (rootfs_dir : String)
    (globs : List String) (h : Host) :
    returns_with_identity h (sc_mount_nvidia_driver_multiarch cfg rootfs_dir globs h) := by
  have hbind : ∀ h0 : Host, returns_with_identity h0
      ((sc_mkdir_and_mount_and_bind rootfs_dir "/usr/lib/nvidia" SC_LIBGL_DIR h0).andThen
        fun _ h1 =>
          sc_mkdir_and_mount_and_bind rootfs_dir "/usr/lib32/nvidia" SC_LIBGL32_DIR h1) := by
    intro h0
    apply returns_with_identity_andThen
    · exact bind_returns_with_identity _ _ _ _
    · intro _ h1 _
      exact bind_returns_with_identity _ _ _ _
  have hprobe : ∀ (dir : String) (h0 : Host),
      returns_with_identity h0 (sc_mount_nvidia_is_driver_in_dir dir h0) := by
    intro dir h0 a h2 hr
    rw [is_driver_in_dir_ret dir h0 h2 a hr]
  simp only [sc_mount_nvidia_driver_multiarch]
  split
  · apply returns_with_identity_andThen
    · exact hprobe _ _
    · intro found h0 _
      split
      · apply returns_with_identity_andThen
        · exact glob_files_returns_with_identity _ _ _ _ _
        · intro _ h1 _
          split
          · apply returns_with_identity_andThen
            · exact hprobe _ _
            · intro found32 h2 _
              split
              · exact glob_files_returns_with_identity _ _ _ _ _
              · exact returns_with_identity_ret _ _
          · exact returns_with_identity_ret _ _
      · exact hbind h0
  · exact hbind h

theorem biarch_extends (cfg : Config) (rootfs_dir : String) (globs : List String) (h : Host) :
    extends_with (nvidia_op rootfs_dir globs) h
      (sc_mount_nvidia_driver_biarch cfg rootfs_dir globs h).host := by
  simp only [sc_mount_nvidia_driver_biarch]
  apply extends_with_andThen
  · exact extends_with_mono (fun _ q => Or.inr (Or.inr (Or.inr (Or.inl q))))
      (glob_files_extends _ _ _ _ _)
  · intro _ h1 _
    split
    · exact extends_with_mono (fun _ q => Or.inr (Or.inr (Or.inr (Or.inr (Or.inl q)))))
        (glob_files_extends _ _ _ _ _)
    · exact extends_with_refl _ _

theorem biarch_returns_with_identity (cfg : Config) (rootfs_dir : String)
    (globs : List String) (h : Host) :
    returns_with_identity h (sc_mount_nvidia_driver_biarch cfg rootfs_dir globs h) := by
  simp only [sc_mount_nvidia_driver_biarch]
  apply returns_with_identity_andThen
  · exact glob_files_returns_with_identity _ _ _ _ _
  · intro _ h1 _
    split
    · exact glob_files_returns_with_identity _ _ _ _ _
    · exact returns_with_identity_ret _ _

theorem strategy_extends (cfg : Config) (rootfs_dir : String) (globs : List String)
    (h : Host) :
    extends_with (nvidia_op rootfs_dir globs) h
      (nvidia_strategy cfg rootfs_dir globs h).host := by
  simp only [nvidia_strategy]
  split
  · exact multiarch_extends _ _ _ _
  · exact biarch_extends _ _ _ _
  · exact extends_with_refl _ _

theorem strategy_returns_with_identity (cfg : Config) (rootfs_dir : String)
    (globs : List String) (h : Host) :
    returns_with_identity h (nvidia_strategy cfg rootfs_dir globs h) := by
  simp only [nvidia_strategy]
  split
  · exact multiarch_returns_with_identity _ _ _ _
  · exact biarch_returns_with_identity _ _ _ _
  · exact returns_with_identity_ret _ _

theorem vulkan_extends (rootfs_dir : String) (globs : List String) (h : Host) :
    extends_with (nvidia_op rootfs_dir globs) h (sc_mount_vulkan rootfs_dir h).host :=
  extends_with_mono (fun _ q => Or.inr (Or.inr (Or.inr (Or.inr (Or.inr (Or.inl q))))))
    (glob_files_extends _ _ _ _ _)

theorem egl_extends (rootfs_dir : String) (globs : List String) (h : Host) :
    extends_with (nvidia_op rootfs_dir globs) h (sc_mount_egl rootfs_dir h).host :=
  extends_with_mono (fun _ q => Or.inr (Or.inr (Or.inr (Or.inr (Or.inr (Or.inr q))))))
    (glob_files_extends _ _ _ _ _)

theorem nvidia_driver_extends (cfg : Config) (rootfs_dir base_snap_name : String) (h : Host) :
    extends_with
      (nvidia_op rootfs_dir
        (if cfg.build = NvidiaBuild.neither then []
         else if base_snap_name = "core" then nvidia_globs ++ glvnd_globs else nvidia_globs))
      h (sc_mount_nvidia_driver cfg rootfs_dir base_snap_name h).host := by
  generalize hG : (if cfg.build = NvidiaBuild.neither then []
         else if base_snap_name = "core" then nvidia_globs ++ glvnd_globs else nvidia_globs) = G
  have e1 := set_identity_extends (Q := nvidia_op rootfs_dir G) sc_root_group_identity h
    (Or.inl trivial)
  have e2 := mkpath_extends (Q := nvidia_op rootfs_dir G) SC_EXTRA_LIB_DIR 0o755
    (sc_set_effective_identity sc_root_group_identity h).2 (fun _ => Or.inl ⟨rfl, rfl⟩)
  have e12 := extends_with_trans e1 e2
  simp only [sc_mount_nvidia_driver]
  split
  · exact extends_with_refl _ _
  · split
    · exact e12
    · apply extends_with_andThen
      · split
        · have e3 := chown_extends (Q := nvidia_op rootfs_dir G) SC_EXTRA_LIB_DIR 0 0
            (sc_nonfatal_mkpath SC_EXTRA_LIB_DIR 0o755
              (sc_set_effective_identity sc_root_group_identity h).2).2
            (fun _ => Or.inl ⟨rfl, rfl, rfl⟩)
          split
          · exact extends_with_trans e12 e3
          · exact extends_with_trans e12 e3
        · exact e12
      · intro _ h3 _
        have e4 := set_identity_extends (Q := nvidia_op rootfs_dir G) h.identity h3
          (Or.inl trivial)
        refine extends_with_trans e4 ?_
        apply extends_with_andThen
        · split
          · exact extends_with_refl _ _
          · split
            · split
              · exact extends_with_refl _ _
              · exact extends_with_refl _ _
            · exact extends_with_refl _ _
        · intro globs h5 hsel
          have hglobs : globs = G := by
            rw [← hG]
            split at hsel
            · rename_i hb
              simp only [hb, if_true]
              cases hsel; rfl
            · rename_i hb
              simp only [hb, if_false]
              split at hsel
              · rename_i hc
                have hc' : base_snap_name = "core" := by simpa [sc_streq] using hc
                simp only [hc', if_true]
                split at hsel
                · exact Outcome.noConfusion hsel
                · cases hsel; rfl
              · rename_i hc
                have hc' : ¬ base_snap_name = "core" := by simpa [sc_streq] using hc
                simp only [hc', if_false]
                cases hsel; rfl
          subst hglobs
          apply extends_with_andThen
          · exact strategy_extends _ _ _ _
          · intro _ h6 _
            apply extends_with_andThen
            · exact vulkan_extends _ _ _
            · intro _ h7 _
              exact egl_extends _ _ _

theorem nvidia_driver_returns_with_identity (cfg : Config) (rootfs_dir base_snap_name : String)
    (h : Host) :
    returns_with_identity h (sc_mount_nvidia_driver cfg rootfs_dir base_snap_name h) := by
  simp only [sc_mount_nvidia_driver]
  split
  · exact returns_with_identity_ret _ _
  · split
    · exact returns_with_identity_died _ _ _
    · intro a hfin hr
      have key : ∀ (o : Outcome Unit) (h3 : Host), o = .ret () h3 →
          returns_with_identity ((sc_set_effective_identity h.identity h3).2)
            ((if cfg.build = NvidiaBuild.neither then
                  (Outcome.ret [] (sc_set_effective_identity h.identity h3).2
                    : Outcome (List String))
                else if sc_streq base_snap_name "core" = true then
                  if (sc_set_effective_identity h.identity h3).2.malloc_fault = true then
                    .died "cannot allocate globs array" (sc_set_effective_identity h.identity h3).2
                  else .ret (nvidia_globs ++ glvnd_globs) (sc_set_effective_identity h.identity h3).2
                else .ret nvidia_globs (sc_set_effective_identity h.identity h3).2).andThen
              fun globs h5 =>
                (nvidia_strategy cfg rootfs_dir globs h5).andThen fun _ h6 =>
                  (sc_mount_vulkan rootfs_dir h6).andThen fun _ h7 => sc_mount_egl rootfs_dir h7) := by
        intro o h3 _
        apply returns_with_identity_andThen
        · split
          · exact returns_with_identity_ret _ _
          · split
            · split
              · exact returns_with_identity_died _ _ _
              · exact returns_with_identity_ret _ _
            · exact returns_with_identity_ret _ _
        · intro globs h5 _
          apply returns_with_identity_andThen
          · exact strategy_returns_with_identity _ _ _ _
          · intro _ h6 _
            apply returns_with_identity_andThen
            · exact glob_files_returns_with_identity _ _ _ _ _
            · intro _ h7 _
              exact glob_files_returns_with_identity _ _ _ _ _
      revert hr
      generalize hfix : (if ((sc_nonfatal_mkpath SC_EXTRA_LIB_DIR 0o755
          (sc_set_effective_identity sc_root_group_identity h).2).1 == 0) = true then
        (let c := chown SC_EXTRA_LIB_DIR 0 0 (sc_nonfatal_mkpath SC_EXTRA_LIB_DIR 0o755
          (sc_set_effective_identity sc_root_group_identity h).2).2
         if c.res < 0 then Outcome.died ("cannot change ownership of " ++ SC_EXTRA_LIB_DIR) c.host
         else Outcome.ret () c.host)
        else Outcome.ret () (sc_nonfatal_mkpath SC_EXTRA_LIB_DIR 0o755
          (sc_set_effective_identity sc_root_group_identity h).2).2) = fixed
      intro hr
      cases fixed with
      | died msg hd => exact Outcome.noConfusion hr
      | ret u h3 =>
        simp only [Outcome.andThen] at hr
        have := key (.ret () h3) h3 rfl a hfin hr
        rw [this]
        rfl

theorem wsl_bind_extends (rootfs_dir : String) (h : Host) :
    extends_with wsl_op h
      (sc_mkdir_and_mount_and_bind_wsl_gpu rootfs_dir SC_HOST_WSL_DIR SC_WSL_GPU_DIR h).host := by
  have e1 := set_identity_extends (Q := wsl_op) sc_root_group_identity h trivial
  have e2 := mkdir_extends (Q := wsl_op) SC_WSL_GPU_DIR 0o755
    (sc_set_effective_identity sc_root_group_identity h).2 (fun _ => ⟨rfl, rfl⟩)
  have e12 := extends_with_trans e1 e2
  simp only [sc_mkdir_and_mount_and_bind_wsl_gpu]
  split
  · exact extends_with_refl _ _
  · split
    · exact e12
    · have e3 := set_identity_extends (Q := wsl_op) h.identity
        (mkdir SC_WSL_GPU_DIR 0o755 (sc_set_effective_identity sc_root_group_identity h).2).host
        trivial
      have e4 := mount_extends (Q := wsl_op) SC_HOST_WSL_DIR SC_WSL_GPU_DIR MS_BIND
        (sc_set_effective_identity h.identity
          (mkdir SC_WSL_GPU_DIR 0o755
            (sc_set_effective_identity sc_root_group_identity h).2).host).2
        (fun _ => ⟨rfl, rfl, rfl⟩)
      have e := extends_with_trans e12 (extends_with_trans e3 e4)
      split
      · exact e
      · exact e

theorem wsl_bind_returns_with_identity (rootfs_dir src_dir dst_dir : String) (h : Host) :
    returns_with_identity h
      (sc_mkdir_and_mount_and_bind_wsl_gpu rootfs_dir src_dir dst_dir h) := by
  intro a h2 hr
  simp only [sc_mkdir_and_mount_and_bind_wsl_gpu] at hr
  split at hr
  · cases hr; rfl
  · split at hr
    · exact Outcome.noConfusion hr
    · split at hr
      · exact Outcome.noConfusion hr
      · cases hr
        rw [mount_identity]
        rfl

theorem wsl_driver_extends (rootfs_dir : String) (h : Host) :
    extends_with wsl_op h (sc_mount_wsl2_gpu_driver rootfs_dir h).host := by
  have e1 := set_identity_extends (Q := wsl_op) sc_root_group_identity h trivial
  have e2 := mkpath_extends (Q := wsl_op) SC_LIB 0o755
    (sc_set_effective_identity sc_root_group_identity h).2 (fun _ => ⟨rfl, rfl⟩)
  have e12 := extends_with_trans e1 e2
  simp only [sc_mount_wsl2_gpu_driver]
  split
  · exact extends_with_refl _ _
  · split
    · exact e12
    · have e3 := set_identity_extends (Q := wsl_op) h.identity
        (sc_nonfatal_mkpath SC_LIB 0o755
          (sc_set_effective_identity sc_root_group_identity h).2).2 trivial
      exact extends_with_trans e12 (extends_with_trans e3 (wsl_bind_extends _ _))

theorem wsl_driver_returns_with_identity (rootfs_dir : String) (h : Host) :
    returns_with_identity h (sc_mount_wsl2_gpu_driver rootfs_dir h) := by
  intro a h2 hr
  simp only [sc_mount_wsl2_gpu_driver] at hr
  split at hr
  · cases hr; rfl
  · split at hr
    · exact Outcome.noConfusion hr
    · have := wsl_bind_returns_with_identity _ _ _ _ a h2 hr
      rw [this]
      rfl

theorem bind_active_facts (rootfs_dir src_dir tgt_dir src dst : String) (h : Host)
    (v : sc_nv_version) (hp : sc_probe_nvidia_driver h.version_file = .ok v)
    (hmaj : v.major ≠ 0)
    (hsrc : sc_must_snprintf PATH_MAX (src_dir ++ "-" ++ fmt_d v.major) = some src)
    (hdst : sc_must_snprintf PATH_MAX (rootfs_dir ++ tgt_dir) = some dst)
    (hacc : access src h = 0) :
    ((sc_mkdir_and_mount_and_bind rootfs_dir src_dir tgt_dir h).fatal = true ↔
      ((mkdir dst 0o755 h).res ≠ 0 ∧ (mkdir dst 0o755 h).errno ≠ some Errno.EEXIST)
        ∨ ((mkdir dst 0o755 h).res = 0 ∧ (chown dst 0 0 h).res < 0)
        ∨ (mount src dst MS_BIND h).res ≠ 0)
    ∧ (sc_mkdir_and_mount_and_bind rootfs_dir src_dir tgt_dir h).host.trace =
        h.trace ++ (sc_mkdir_and_mount_and_bind rootfs_dir src_dir tgt_dir h).added h
    ∧ ((sc_mkdir_and_mount_and_bind rootfs_dir src_dir tgt_dir h).added h).take 2 =
        [Op.set_effective_identity sc_root_group_identity,
         Op.mkdir dst 0o755 (mkdir dst 0o755 h).res]
    ∧ ((sc_mkdir_and_mount_and_bind rootfs_dir src_dir tgt_dir h).fatal = false →
        ((sc_mkdir_and_mount_and_bind rootfs_dir src_dir tgt_dir h).added h).getLast? =
            some (Op.mount src dst MS_BIND 0)
          ∧ (sc_mkdir_and_mount_and_bind rootfs_dir src_dir tgt_dir h).host.mounts =
            h.mounts ++ [(src, dst)])
    ∧ chown_calls ((sc_mkdir_and_mount_and_bind rootfs_dir src_dir tgt_dir h).added h) =
        (if (mkdir dst 0o755 h).res = 0 then [(dst, 0, 0)] else [])
    ∧ ((mkdir dst 0o755 h).res ≠ 0 →
        (sc_mkdir_and_mount_and_bind rootfs_dir src_dir tgt_dir h).host.owner = h.owner)
    ∧ (Op.mkdir dst 0o755 0 ∈ (sc_mkdir_and_mount_and_bind rootfs_dir src_dir tgt_dir h).added h
        ↔ (mkdir dst 0o755 h).res = 0) := by
  have hmaj' : (v.major == 0) = false := by simpa using hmaj
  have hacc' : (access src h != 0) = false := by simp [hacc]
  simp only [sc_mkdir_and_mount_and_bind, hp, hmaj', hsrc, hdst, hacc']
  simp only [access] at hacc
  cases hf : h.mkdir_fault dst with
  | none =>
    by_cases hex : access dst h = 0 <;>
    cases hc : h.chown_fault dst <;> cases hmf : h.mount_fault src dst <;>
    simp only [access] at hex <;>
    simp [mkdir, chown, mount, sc_set_effective_identity, Outcome.andThen, Outcome.fatal,
      Outcome.added, Outcome.host, chown_calls, access, hf, hex, hc, hmf]
  | some e =>
    by_cases he : e = Errno.EEXIST <;>
    cases hc : h.chown_fault dst <;> cases hmf : h.mount_fault src dst <;>
    simp [mkdir, chown, mount, sc_set_effective_identity, Outcome.andThen, Outcome.fatal,
      Outcome.added, Outcome.host, chown_calls, access, hf, he, hc, hmf]

theorem wsl_bind_active_facts (rootfs_dir src dst : String) (h : Host)
    (hacc : access src h = 0) :
    ((sc_mkdir_and_mount_and_bind_wsl_gpu rootfs_dir src dst h).fatal = true ↔
      ((mkdir dst 0o755 h).res ≠ 0 ∧ (mkdir dst 0o755 h).errno ≠ some Errno.EEXIST)
        ∨ (mount src dst MS_BIND h).res ≠ 0)
    ∧ (sc_mkdir_and_mount_and_bind_wsl_gpu rootfs_dir src dst h).host.trace =
        h.trace ++ (sc_mkdir_and_mount_and_bind_wsl_gpu rootfs_dir src dst h).added h
    ∧ ((sc_mkdir_and_mount_and_bind_wsl_gpu rootfs_dir src dst h).added h).take 2 =
        [Op.set_effective_identity sc_root_group_identity,
         Op.mkdir dst 0o755 (mkdir dst 0o755 h).res]
    ∧ ((sc_mkdir_and_mount_and_bind_wsl_gpu rootfs_dir src dst h).fatal = false →
        ((sc_mkdir_and_mount_and_bind_wsl_gpu rootfs_dir src dst h).added h).getLast? =
            some (Op.mount src dst MS_BIND 0)
          ∧ (sc_mkdir_and_mount_and_bind_wsl_gpu rootfs_dir src dst h).host.mounts =
            h.mounts ++ [(src, dst)])
    ∧ chown_calls ((sc_mkdir_and_mount_and_bind_wsl_gpu rootfs_dir src dst h).added h) = []
    ∧ ((mkdir dst 0o755 h).res ≠ 0 ∧ (mkdir dst 0o755 h).errno ≠ some Errno.EEXIST →
        (sc_mkdir_and_mount_and_bind_wsl_gpu rootfs_dir src dst h).host.identity =
          sc_root_group_identity) := by
  have hacc' : (access src h != 0) = false := by simp [hacc]
  simp only [sc_mkdir_and_mount_and_bind_wsl_gpu, hacc']
  simp only [access] at hacc
  cases hf : h.mkdir_fault dst with
  | none =>
    by_cases hex : access dst h = 0 <;> cases hmf : h.mount_fault src dst <;>
    simp only [access] at hex <;>
    simp [mkdir, mount, sc_set_effective_identity, Outcome.fatal,
      Outcome.added, Outcome.host, chown_calls, access, hf, hex, hmf]
  | some e =>
    by_cases he : e = Errno.EEXIST <;> cases hmf : h.mount_fault src dst <;>
    simp [mkdir, mount, sc_set_effective_identity, Outcome.fatal,
      Outcome.added, Outcome.host, chown_calls, access, hf, he, hmf]

theorem bind_death_identity (rootfs_dir src_dir tgt_dir src dst : String) (h : Host)
    (v : sc_nv_version) (hp : sc_probe_nvidia_driver h.version_file = .ok v)
    (hmaj : v.major ≠ 0)
    (hsrc : sc_must_snprintf PATH_MAX (src_dir ++ "-" ++ fmt_d v.major) = some src)
    (hdst : sc_must_snprintf PATH_MAX (rootfs_dir ++ tgt_dir) = some dst)
    (hacc : access src h = 0)
    (hfail : ((mkdir dst 0o755 h).res ≠ 0 ∧ (mkdir dst 0o755 h).errno ≠ some Errno.EEXIST)
        ∨ ((mkdir dst 0o755 h).res = 0 ∧ (chown dst 0 0 h).res < 0)) :
    (sc_mkdir_and_mount_and_bind rootfs_dir src_dir tgt_dir h).fatal = true
      ∧ (sc_mkdir_and_mount_and_bind rootfs_dir src_dir tgt_dir h).host.identity =
          sc_root_group_identity := by
  have hmaj' : (v.major == 0) = false := by simpa using hmaj
  have hacc' : (access src h != 0) = false := by simp [hacc]
  simp only [sc_mkdir_and_mount_and_bind, hp, hmaj', hsrc, hdst, hacc']
  simp only [access] at hacc
  revert hfail
  cases hf : h.mkdir_fault dst with
  | none =>
    by_cases hex : access dst h = 0 <;>
    cases hc : h.chown_fault dst <;> cases hmf : h.mount_fault src dst <;>
    simp only [access] at hex <;>
    simp [mkdir, chown, mount, sc_set_effective_identity, Outcome.andThen, Outcome.fatal,
      Outcome.host, access, hf, hex, hc, hmf]
  | some e =>
    by_cases he : e = Errno.EEXIST <;>
    cases hc : h.chown_fault dst <;> cases hmf : h.mount_fault src dst <;>
    simp [mkdir, chown, mount, sc_set_effective_identity, Outcome.andThen, Outcome.fatal,
      Outcome.host, access, hf, he, hc, hmf]

theorem nvidia_driver_death_identity (cfg : Config) (rootfs_dir base_snap_name : String)
    (h : Host) (hfile : h.version_file ≠ VersionFile.absent)
    (hfail : h.mkpath_fault SC_EXTRA_LIB_DIR = true ∨ h.chown_fault SC_EXTRA_LIB_DIR = true) :
    (sc_mount_nvidia_driver cfg rootfs_dir base_snap_name h).fatal = true
      ∧ (sc_mount_nvidia_driver cfg rootfs_dir base_snap_name h).host.identity =
          sc_root_group_identity := by
  have hacc : (access SC_NVIDIA_DRIVER_VERSION_FILE h != 0) = false := by
    simp [access, hfile]
  simp only [sc_mount_nvidia_driver, hacc]
  revert hfail
  cases hp : h.mkpath_fault SC_EXTRA_LIB_DIR <;> cases hc : h.chown_fault SC_EXTRA_LIB_DIR <;>
    by_cases hex : access SC_EXTRA_LIB_DIR h = 0 <;>
    simp only [access] at hex <;>
    simp [sc_nonfatal_mkpath, chown, sc_set_effective_identity, Outcome.andThen, Outcome.fatal,
      Outcome.host, access, hp, hc, hex]

theorem wsl_driver_death_identity (rootfs_dir : String) (h : Host)
    (hdir : access SC_HOST_WSL_DIR h = 0) (hfail : h.mkpath_fault SC_LIB = true) :
    (sc_mount_wsl2_gpu_driver rootfs_dir h).fatal = true
      ∧ (sc_mount_wsl2_gpu_driver rootfs_dir h).host.identity = sc_root_group_identity := by
  have hacc : (access SC_HOST_WSL_DIR h != 0) = false := by simp [hdir]
  simp only [sc_mount_wsl2_gpu_driver, hacc]
  simp [sc_nonfatal_mkpath, sc_set_effective_identity, Outcome.fatal, Outcome.host, hfail]

-- ---------------------------------------------------------------------------
-- Theorems: the orchestrators
-- ---------------------------------------------------------------------------

theorem string_append_cancel (r a b : String) (h : r ++ a = r ++ b) : a = b := by
  have hd := congrArg String.data h
  simp only [String.data_append, List.append_cancel_left_eq] at hd
  exact String.ext hd

theorem populate_of_nvidia_op (rootfs_dir : String) (G : List String) (dir src : String)
    (globs : List String) (q : nvidia_op rootfs_dir G (.populate dir src globs))
    (hdir : dir = rootfs_dir ++ SC_LIBGL_DIR ∨ dir = rootfs_dir ++ SC_LIBGL32_DIR) :
    globs = G := by
  rcases q with q | q | q | q | q | q | q
  · exact q.elim
  · exact q.elim
  · exact q.elim
  · exact q.2
  · exact q.2
  · exfalso
    rcases hdir with hd | hd
    · have := string_append_cancel _ _ _ (q.1.symm.trans hd)
      revert this; decide
    · have := string_append_cancel _ _ _ (q.1.symm.trans hd)
      revert this; decide
  · exfalso
    rcases hdir with hd | hd
    · have := string_append_cancel _ _ _ (q.1.symm.trans hd)
      revert this; decide
    · have := string_append_cancel _ _ _ (q.1.symm.trans hd)
      revert this; decide

theorem strategy_handed_globs (cfg : Config) (rootfs_dir base_snap_name : String) (h : Host)
    (hb : cfg.build ≠ NvidiaBuild.neither)
    (hfile : h.version_file ≠ VersionFile.absent)
    (hmk : h.mkpath_fault SC_EXTRA_LIB_DIR = false)
    (hch : h.chown_fault SC_EXTRA_LIB_DIR = false)
    (hma : h.malloc_fault = false) :
    sc_mount_nvidia_driver cfg rootfs_dir base_snap_name h =
      (nvidia_strategy cfg rootfs_dir
          (if base_snap_name = "core" then nvidia_globs ++ glvnd_globs else nvidia_globs)
          (base_ready h)).andThen fun _ h6 =>
        (sc_mount_vulkan rootfs_dir h6).andThen fun _ h7 => sc_mount_egl rootfs_dir h7 := by
  have hacc : (access SC_NVIDIA_DRIVER_VERSION_FILE h != 0) = false := by
    simp [access, hfile]
  simp only [sc_mount_nvidia_driver, hacc, base_ready]
  by_cases hex : access SC_EXTRA_LIB_DIR h = 0 <;> by_cases hc : base_snap_name = "core" <;>
    simp only [access] at hex <;>
    simp [sc_nonfatal_mkpath, chown, sc_set_effective_identity, Outcome.andThen, access,
      sc_streq, hb, hmk, hch, hma, hex, hc]

/-- Claim C3: in a biarch or multiarch build, once the base directory step
    of sc_mount_nvidia_driver has succeeded, the architecture strategy is
    called with exactly nvidia_globs followed by glvnd_globs, of length
    nvidia_globs_len + glvnd_globs_len, when base_snap_name is core, and with
    exactly nvidia_globs, which holds none of the names of glvnd_globs, for
    every other base_snap_name; and in every run each glob farm populated in
    the gl or gl32 directory carries that list. -/
theorem glob_set_selection (cfg : Config) (rootfs_dir base_snap_name : String) (h : Host)
    (hb : cfg.build = NvidiaBuild.NVIDIA_BIARCH ∨ cfg.build = NvidiaBuild.NVIDIA_MULTIARCH) :
    (h.version_file ≠ VersionFile.absent → h.mkpath_fault SC_EXTRA_LIB_DIR = false →
      h.chown_fault SC_EXTRA_LIB_DIR = false → h.malloc_fault = false →
      sc_mount_nvidia_driver cfg rootfs_dir base_snap_name h =
        (nvidia_strategy cfg rootfs_dir
            (if base_snap_name = "core" then nvidia_globs ++ glvnd_globs else nvidia_globs)
            (base_ready h)).andThen fun _ h6 =>
          (sc_mount_vulkan rootfs_dir h6).andThen fun _ h7 => sc_mount_egl rootfs_dir h7)
    ∧ (nvidia_globs ++ glvnd_globs).length = nvidia_globs_len + glvnd_globs_len
    ∧ (∀ g ∈ glvnd_globs, g ∉ nvidia_globs)
    ∧ ∃ added,
      (sc_mount_nvidia_driver cfg rootfs_dir base_snap_name h).host.trace = h.trace ++ added ∧
      ∀ dir src globs, Op.populate dir src globs ∈ added →
        (dir = rootfs_dir ++ SC_LIBGL_DIR ∨ dir = rootfs_dir ++ SC_LIBGL32_DIR) →
        (base_snap_name = "core" → globs = nvidia_globs ++ glvnd_globs) ∧
        (base_snap_name ≠ "core" → globs = nvidia_globs) := by
  have hne : cfg.build ≠ NvidiaBuild.neither := by
    rcases hb with hb | hb <;> rw [hb] <;> decide
  refine ⟨fun hfile hmk hch hma =>
      strategy_handed_globs cfg rootfs_dir base_snap_name h hne hfile hmk hch hma,
    by simp [nvidia_globs_len, glvnd_globs_len], by decide, ?_⟩
  obtain ⟨added, htrace, hq⟩ := nvidia_driver_extends cfg rootfs_dir base_snap_name h
  refine ⟨added, htrace, ?_⟩
  intro dir src globs hmem hdir
  have hG := populate_of_nvidia_op rootfs_dir _ dir src globs (hq _ hmem) hdir
  simp only [hne, if_false] at hG
  constructor
  · intro hcore
    simpa only [hcore, if_true] using hG
  · intro hcore
    simpa only [hcore, if_false] using hG

/-- Witness of C3: a biarch build on a host with the driver loaded; with the
    base snap core the strategy is called with nvidia_globs followed by
    glvnd_globs and the farm of the gl directory is populated with that list,
    with the base snap core18 with nvidia_globs. -/
theorem glob_set_selection_witness :
    sc_mount_nvidia_driver biarch_config "/snap/core/1" "core" nvidia_host =
        ((nvidia_strategy biarch_config "/snap/core/1" (nvidia_globs ++ glvnd_globs)
            (base_ready nvidia_host)).andThen fun _ h6 =>
          (sc_mount_vulkan "/snap/core/1" h6).andThen fun _ h7 =>
            sc_mount_egl "/snap/core/1" h7)
    ∧ Op.populate "/snap/core/1/var/lib/snapd/lib/gl" "/usr/lib64" (nvidia_globs ++ glvnd_globs)
        ∈ (sc_mount_nvidia_driver biarch_config "/snap/core/1" "core" nvidia_host).host.trace
    ∧ Op.populate "/snap/core18/1/var/lib/snapd/lib/gl" "/usr/lib64" nvidia_globs
        ∈ (sc_mount_nvidia_driver biarch_config "/snap/core18/1" "core18" nvidia_host).host.trace :=
  ⟨(glob_set_selection biarch_config "/snap/core/1" "core" nvidia_host (Or.inl rfl)).1
      (by decide) (by decide) (by decide) (by decide),
   by decide, by decide⟩

/-- Claim C4: when the version file /sys/module/nvidia/version is absent,
    sc_mount_nvidia_driver returns at once in the very state it was called in,
    for every build, rootfs_dir and base_snap_name: no directory is created,
    no ownership changed, no mount made and the identity never switched. -/
theorem mount_nvidia_driver_absent (cfg : Config) (rootfs_dir base_snap_name : String)
    (h : Host) (habs : h.version_file = VersionFile.absent) :
    sc_mount_nvidia_driver cfg rootfs_dir base_snap_name h = .ret () h := by
  simp [sc_mount_nvidia_driver, access, habs]

/-- Witness of C4: the base snap core on a host without the version file. -/
theorem mount_nvidia_driver_absent_witness :
    empty_host.version_file = VersionFile.absent ∧
      sc_mount_nvidia_driver multiarch_config "/snap/core/1" "core" empty_host
        = .ret () empty_host :=
  ⟨rfl, mount_nvidia_driver_absent multiarch_config "/snap/core/1" "core" empty_host rfl⟩

/-- Counterexample to claim C5 as stated: on a host without the version file
    the probed major is 0 and sc_mount_wsl2_gpu_driver still creates
    /var/lib/snapd/lib and /var/lib/snapd/lib/wsl and mounts onto the latter;
    on a host whose version file holds 0.1 the probed major is 0 and
    sc_mount_nvidia_driver still creates /var/lib/snapd/lib and changes its
    ownership. -/
theorem zero_major_mutation_counterexample :
    (sc_probe_nvidia_driver wsl_host.version_file
        = .ok { major := 0, raw := List.replicate 128 0 }
      ∧ (sc_mount_wsl2_gpu_driver "/snap/core/1" wsl_host).host.trace =
          [Op.set_effective_identity { uid := 0, gid := 0 },
           Op.mkpath "/var/lib/snapd/lib" 0o755 0,
           Op.set_effective_identity { uid := 1000, gid := 1000 },
           Op.set_effective_identity { uid := 0, gid := 0 },
           Op.mkdir "/var/lib/snapd/lib/wsl" 0o755 0,
           Op.set_effective_identity { uid := 1000, gid := 1000 },
           Op.mount "/usr/lib/wsl/lib" "/var/lib/snapd/lib/wsl" MS_BIND 0]
      ∧ (sc_mount_wsl2_gpu_driver "/snap/core/1" wsl_host).host.mounts =
          [("/usr/lib/wsl/lib", "/var/lib/snapd/lib/wsl")])
    ∧ (sc_probe_nvidia_driver zero_major_host.version_file
        = .ok { major := 0, raw := bytes_of "0.1" ++ List.replicate 125 0 }
      ∧ ((sc_mount_nvidia_driver multiarch_config "/snap/core/1" "core"
            zero_major_host).host.trace).take 3 =
          [Op.set_effective_identity { uid := 0, gid := 0 },
           Op.mkpath "/var/lib/snapd/lib" 0o755 0,
           Op.chown "/var/lib/snapd/lib" 0 0 0]
      ∧ "/var/lib/snapd/lib" ∉ zero_major_host.paths
      ∧ "/var/lib/snapd/lib" ∈
          (sc_mount_nvidia_driver multiarch_config "/snap/core/1" "core"
            zero_major_host).host.paths) := by
  decide

/-- Claim C5 as amended: when the probed major is 0 (the version file absent,
    or present with a content such as 0.1) the direct bind
    sc_mkdir_and_mount_and_bind and the multiarch strategy return in the very
    state they were called in; sc_mount_nvidia_driver does so when the version
    file is absent; sc_mount_wsl2_gpu_driver, which never reads the NVIDIA
    version, does so when /usr/lib/wsl/lib is absent. -/
theorem zero_major_no_mutation (cfg : Config)
    (rootfs_dir base_snap_name src_dir tgt_dir : String) (globs : List String) (h : Host)
    (v : sc_nv_version) (hp : sc_probe_nvidia_driver h.version_file = .ok v)
    (hz : v.major = 0) :
    sc_mkdir_and_mount_and_bind rootfs_dir src_dir tgt_dir h = .ret () h
      ∧ sc_mount_nvidia_driver_multiarch cfg rootfs_dir globs h = .ret () h
      ∧ (h.version_file = VersionFile.absent →
          sc_mount_nvidia_driver cfg rootfs_dir base_snap_name h = .ret () h)
      ∧ (access SC_HOST_WSL_DIR h ≠ 0 → sc_mount_wsl2_gpu_driver rootfs_dir h = .ret () h) := by
  have hb : ∀ s t, sc_mkdir_and_mount_and_bind rootfs_dir s t h = .ret () h := by
    intro s t
    simp [sc_mkdir_and_mount_and_bind, hp, hz]
  have hd : ∀ d, sc_mount_nvidia_is_driver_in_dir d h = .ret 0 h := by
    intro d
    simp [sc_mount_nvidia_is_driver_in_dir, hp, hz]
  refine ⟨hb _ _, ?_, ?_, ?_⟩
  · simp only [sc_mount_nvidia_driver_multiarch]
    split
    · simp [hd, hb, Outcome.andThen]
    · simp [hb, Outcome.andThen]
  · intro habs
    simp [sc_mount_nvidia_driver, access, habs]
  · intro hw
    simp [sc_mount_wsl2_gpu_driver, hw]

/-- Witness of C5 as amended: the host whose version file holds 0.1. -/
theorem zero_major_no_mutation_witness :
    sc_probe_nvidia_driver zero_major_host.version_file
        = .ok { major := 0, raw := bytes_of "0.1" ++ List.replicate 125 0 }
      ∧ sc_mkdir_and_mount_and_bind "/snap/core/1" "/usr/lib/nvidia" SC_LIBGL_DIR
          zero_major_host = .ret () zero_major_host
      ∧ sc_mount_nvidia_driver_multiarch multiarch_config "/snap/core/1" nvidia_globs
          zero_major_host = .ret () zero_major_host
      ∧ access SC_HOST_WSL_DIR zero_major_host ≠ 0
      ∧ sc_mount_wsl2_gpu_driver "/snap/core/1" zero_major_host = .ret () zero_major_host := by
  have hp : sc_probe_nvidia_driver zero_major_host.version_file
      = .ok { major := 0, raw := bytes_of "0.1" ++ List.replicate 125 0 } := by decide
  have hw : access SC_HOST_WSL_DIR zero_major_host ≠ 0 := by decide
  have t := zero_major_no_mutation multiarch_config "/snap/core/1" "core" "/usr/lib/nvidia"
    SC_LIBGL_DIR nvidia_globs zero_major_host _ hp rfl
  exact ⟨hp, t.1, t.2.1, hw, t.2.2.2 hw⟩

/-- Claim C6: failure condition of the mount executor. With a loaded driver
    (the probe gives a major other than 0), the paths src and dst formed and
    the source src present, sc_mkdir_and_mount_and_bind calls mkdir on dst with
    mode 0755 and dies if and only if that mkdir fails with an error other than
    EEXIST, or the directory was created and its chown fails, or the bind mount
    fails; a run that does not die ends with the MS_BIND mount of src onto dst,
    whether or not dst existed. With the source present,
    sc_mkdir_and_mount_and_bind_wsl_gpu does the same except that it makes no
    ownership change at all, so that cause never arises for it. Whether a call
    fails is decided by the environment of the host, so it is the same before
    and after the switch of identity and is written here on the host h. -/
theorem mount_executor_failure (rootfs_dir src_dir tgt_dir src dst : String) (h : Host)
    (v : sc_nv_version) (hp : sc_probe_nvidia_driver h.version_file = .ok v)
    (hmaj : v.major ≠ 0)
    (hsrc : sc_must_snprintf PATH_MAX (src_dir ++ "-" ++ fmt_d v.major) = some src)
    (hdst : sc_must_snprintf PATH_MAX (rootfs_dir ++ tgt_dir) = some dst)
    (hacc : access src h = 0)
    (wsl_rootfs wsl_src wsl_dst : String) (hw : Host) (hwacc : access wsl_src hw = 0) :
    (let o := sc_mkdir_and_mount_and_bind rootfs_dir src_dir tgt_dir h
     (o.fatal = true ↔
        ((mkdir dst 0o755 h).res ≠ 0 ∧ (mkdir dst 0o755 h).errno ≠ some Errno.EEXIST)
          ∨ ((mkdir dst 0o755 h).res = 0 ∧ (chown dst 0 0 h).res < 0)
          ∨ (mount src dst MS_BIND h).res ≠ 0)
      ∧ o.host.trace = h.trace ++ o.added h
      ∧ (o.added h).take 2 =
          [Op.set_effective_identity sc_root_group_identity,
           Op.mkdir dst 0o755 (mkdir dst 0o755 h).res]
      ∧ (o.fatal = false →
          (o.added h).getLast? = some (Op.mount src dst MS_BIND 0)
            ∧ o.host.mounts = h.mounts ++ [(src, dst)]))
    ∧ (let o := sc_mkdir_and_mount_and_bind_wsl_gpu wsl_rootfs wsl_src wsl_dst hw
       (o.fatal = true ↔
          ((mkdir wsl_dst 0o755 hw).res ≠ 0
              ∧ (mkdir wsl_dst 0o755 hw).errno ≠ some Errno.EEXIST)
            ∨ (mount wsl_src wsl_dst MS_BIND hw).res ≠ 0)
        ∧ o.host.trace = hw.trace ++ o.added hw
        ∧ (o.added hw).take 2 =
            [Op.set_effective_identity sc_root_group_identity,
             Op.mkdir wsl_dst 0o755 (mkdir wsl_dst 0o755 hw).res]
        ∧ chown_calls (o.added hw) = []
        ∧ (o.fatal = false →
            (o.added hw).getLast? = some (Op.mount wsl_src wsl_dst MS_BIND 0)
              ∧ o.host.mounts = hw.mounts ++ [(wsl_src, wsl_dst)])) := by
  have a := bind_active_facts rootfs_dir src_dir tgt_dir src dst h v hp hmaj hsrc hdst hacc
  have b := wsl_bind_active_facts wsl_rootfs wsl_src wsl_dst hw hwacc
  exact ⟨⟨a.1, a.2.1, a.2.2.1, a.2.2.2.1⟩, ⟨b.1, b.2.1, b.2.2.1, b.2.2.2.2.1, b.2.2.2.1⟩⟩

/-- Witness of C6: the direct bind of /usr/lib/nvidia-440 below /snap/core/1
    with the driver 440.48.02, and the WSL2 bind on a host with
    /usr/lib/wsl/lib; neither run dies. -/
theorem mount_executor_failure_witness :
    ((sc_mkdir_and_mount_and_bind "/snap/core/1" "/usr/lib/nvidia" SC_LIBGL_DIR
        bind_host).fatal = false
      ∧ (sc_mkdir_and_mount_and_bind "/snap/core/1" "/usr/lib/nvidia" SC_LIBGL_DIR
          bind_host).host.mounts
          = bind_host.mounts ++ [("/usr/lib/nvidia-440", "/snap/core/1/var/lib/snapd/lib/gl")])
    ∧ ((sc_mkdir_and_mount_and_bind_wsl_gpu "/snap/core/1" SC_HOST_WSL_DIR SC_WSL_GPU_DIR
        wsl_host).fatal = false
      ∧ (sc_mkdir_and_mount_and_bind_wsl_gpu "/snap/core/1" SC_HOST_WSL_DIR SC_WSL_GPU_DIR
          wsl_host).host.mounts = wsl_host.mounts ++ [(SC_HOST_WSL_DIR, SC_WSL_GPU_DIR)]) := by
  have t := mount_executor_failure "/snap/core/1" "/usr/lib/nvidia" SC_LIBGL_DIR
    "/usr/lib/nvidia-440" "/snap/core/1/var/lib/snapd/lib/gl" bind_host
    { major := 440, raw := bytes_of "440.48.02" ++ List.replicate 119 0 }
    (by decide) (by decide) (by decide) (by decide) (by decide)
    "/snap/core/1" SC_HOST_WSL_DIR SC_WSL_GPU_DIR wsl_host (by decide)
  have n1 : (sc_mkdir_and_mount_and_bind "/snap/core/1" "/usr/lib/nvidia" SC_LIBGL_DIR
        bind_host).fatal = false := by decide
  have n2 : (sc_mkdir_and_mount_and_bind_wsl_gpu "/snap/core/1" SC_HOST_WSL_DIR SC_WSL_GPU_DIR
        wsl_host).fatal = false := by decide
  exact ⟨⟨n1, (t.1.2.2.2 n1).2⟩, ⟨n2, (t.2.2.2.2.2 n2).2⟩⟩

/-- Claim C7: ownership rule of the mount executor. In every run of
    sc_mkdir_and_mount_and_bind the chown calls made are exactly one
    chown(dst, 0, 0) when the mkdir of dst made by the run succeeded (the directory was
    freshly created) and none otherwise; when no mkdir of the run succeeded,
    as when dst existed and mkdir failed with EEXIST, no ownership is changed. -/
theorem chown_exactly_when_created (rootfs_dir src_dir tgt_dir : String) (h : Host) :
    let o := sc_mkdir_and_mount_and_bind rootfs_dir src_dir tgt_dir h
    o.host.trace = h.trace ++ o.added h
      ∧ chown_calls (o.added h) =
          (if Op.mkdir (rootfs_dir ++ tgt_dir) 0o755 0 ∈ o.added h
            then [(rootfs_dir ++ tgt_dir, 0, 0)] else [])
      ∧ (Op.mkdir (rootfs_dir ++ tgt_dir) 0o755 0 ∉ o.added h → o.host.owner = h.owner) := by
  intro o
  have hstay : ∀ (o2 : Outcome Unit), o2.host = h →
      o2.host.trace = h.trace ++ o2.added h
        ∧ chown_calls (o2.added h) =
            (if Op.mkdir (rootfs_dir ++ tgt_dir) 0o755 0 ∈ o2.added h
              then [(rootfs_dir ++ tgt_dir, 0, 0)] else [])
        ∧ (Op.mkdir (rootfs_dir ++ tgt_dir) 0o755 0 ∉ o2.added h → o2.host.owner = h.owner) := by
    intro o2 ho
    simp [Outcome.added, ho, chown_calls]
  cases hp : sc_probe_nvidia_driver h.version_file with
  | die msg =>
    apply hstay
    simp [o, sc_mkdir_and_mount_and_bind, hp, Outcome.host]
  | ok v =>
    by_cases hmaj : v.major = 0
    · apply hstay
      simp [o, sc_mkdir_and_mount_and_bind, hp, hmaj, Outcome.host]
    · have hmaj' : (v.major == 0) = false := by simpa using hmaj
      cases hsrc : sc_must_snprintf PATH_MAX (src_dir ++ "-" ++ fmt_d v.major) with
      | none =>
        apply hstay
        simp [o, sc_mkdir_and_mount_and_bind, hp, hmaj', hsrc, Outcome.host]
      | some src =>
        cases hdst : sc_must_snprintf PATH_MAX (rootfs_dir ++ tgt_dir) with
        | none =>
          apply hstay
          simp [o, sc_mkdir_and_mount_and_bind, hp, hmaj', hsrc, hdst, Outcome.host]
        | some dst =>
          have hd : dst = rootfs_dir ++ tgt_dir := by
            simp only [sc_must_snprintf] at hdst
            split at hdst
            · exact (Option.some.inj hdst).symm
            · exact Option.noConfusion hdst
          subst hd
          by_cases hacc : access src h = 0
          · have a := bind_active_facts rootfs_dir src_dir tgt_dir src _ h v hp hmaj hsrc
              hdst hacc
            refine ⟨a.2.1, ?_, ?_⟩
            · rw [a.2.2.2.2.1]
              by_cases hres : (mkdir (rootfs_dir ++ tgt_dir) 0o755 h).res = 0
              · simp only [hres, if_true, a.2.2.2.2.2.2.mpr hres]
              · simp only [hres, if_false, mt a.2.2.2.2.2.2.mp hres]
            · intro hnot
              exact a.2.2.2.2.2.1 (mt a.2.2.2.2.2.2.mpr hnot)
          · apply hstay
            have hacc' : (access src h != 0) = true := by simpa using hacc
            simp [o, sc_mkdir_and_mount_and_bind, hp, hmaj', hsrc, hdst, hacc', Outcome.host]

/-- Claim C8, the code at the failing input: /var/lib/snapd/lib exists before
    the call and belongs to 1000:1000; sc_nonfatal_mkpath returns 0 for the
    directory it did not create, the test res == 0 holds, and
    sc_mount_nvidia_driver changes the ownership of the directory to 0:0. -/
theorem base_dir_chown_on_existing :
    SC_EXTRA_LIB_DIR ∈ shared_base_host.paths
      ∧ shared_base_host.owner SC_EXTRA_LIB_DIR = { uid := 1000, gid := 1000 }
      ∧ ((sc_mount_nvidia_driver multiarch_config "/snap/core/1" "core"
            shared_base_host).host.trace).take 3 =
          [Op.set_effective_identity { uid := 0, gid := 0 },
           Op.mkpath "/var/lib/snapd/lib" 0o755 0,
           Op.chown "/var/lib/snapd/lib" 0 0 0]
      ∧ (sc_mount_nvidia_driver multiarch_config "/snap/core/1" "core"
            shared_base_host).host.owner SC_EXTRA_LIB_DIR = { uid := 0, gid := 0 } := by
  decide

/-- Counterexample to claim C9 as stated: mkdir of the gl directory is refused
    with EACCES inside the elevated scope of sc_mkdir_and_mount_and_bind; the
    process dies with the effective identity 0:0, not with the identity
    1000:1000 captured before the switch. -/
theorem identity_at_death_counterexample :
    (sc_mkdir_and_mount_and_bind "/snap/core/1" "/usr/lib/nvidia" SC_LIBGL_DIR
        denied_host).fatal = true
      ∧ denied_host.identity = { uid := 1000, gid := 1000 }
      ∧ (sc_mkdir_and_mount_and_bind "/snap/core/1" "/usr/lib/nvidia" SC_LIBGL_DIR
          denied_host).host.identity = { uid := 0, gid := 0 }
      ∧ (sc_mkdir_and_mount_and_bind "/snap/core/1" "/usr/lib/nvidia" SC_LIBGL_DIR
          denied_host).host.trace =
          [Op.set_effective_identity { uid := 0, gid := 0 },
           Op.mkdir "/snap/core/1/var/lib/snapd/lib/gl" 0o755 (-1)] := by
  decide

/-- Claim C9 as amended: whenever sc_mount_nvidia_driver,
    sc_mkdir_and_mount_and_bind, sc_mkdir_and_mount_and_bind_wsl_gpu or
    sc_mount_wsl2_gpu_driver returns, the effective identity is the one the
    process had when the function was called; when the protected mkdir,
    mkpath or chown fails fatally the process dies inside the elevated scope,
    its effective identity still root:root, since die does not run the
    restoring call. -/
theorem identity_restored_on_return (cfg : Config)
    (rootfs_dir base_snap_name src_dir tgt_dir wsl_src wsl_dst : String) (h : Host) :
    (∀ h2, sc_mount_nvidia_driver cfg rootfs_dir base_snap_name h = .ret () h2 →
        h2.identity = h.identity)
      ∧ (∀ h2, sc_mkdir_and_mount_and_bind rootfs_dir src_dir tgt_dir h = .ret () h2 →
        h2.identity = h.identity)
      ∧ (∀ h2, sc_mkdir_and_mount_and_bind_wsl_gpu rootfs_dir wsl_src wsl_dst h = .ret () h2 →
        h2.identity = h.identity)
      ∧ (∀ h2, sc_mount_wsl2_gpu_driver rootfs_dir h = .ret () h2 → h2.identity = h.identity)
      ∧ (h.version_file ≠ VersionFile.absent →
          h.mkpath_fault SC_EXTRA_LIB_DIR = true ∨ h.chown_fault SC_EXTRA_LIB_DIR = true →
          (sc_mount_nvidia_driver cfg rootfs_dir base_snap_name h).fatal = true
            ∧ (sc_mount_nvidia_driver cfg rootfs_dir base_snap_name h).host.identity =
                sc_root_group_identity)
      ∧ (∀ v src dst, sc_probe_nvidia_driver h.version_file = .ok v → v.major ≠ 0 →
          sc_must_snprintf PATH_MAX (src_dir ++ "-" ++ fmt_d v.major) = some src →
          sc_must_snprintf PATH_MAX (rootfs_dir ++ tgt_dir) = some dst →
          access src h = 0 →
          ((mkdir dst 0o755 h).res ≠ 0 ∧ (mkdir dst 0o755 h).errno ≠ some Errno.EEXIST)
            ∨ ((mkdir dst 0o755 h).res = 0 ∧ (chown dst 0 0 h).res < 0) →
          (sc_mkdir_and_mount_and_bind rootfs_dir src_dir tgt_dir h).fatal = true
            ∧ (sc_mkdir_and_mount_and_bind rootfs_dir src_dir tgt_dir h).host.identity =
                sc_root_group_identity)
      ∧ (access wsl_src h = 0 →
          (mkdir wsl_dst 0o755 h).res ≠ 0
            ∧ (mkdir wsl_dst 0o755 h).errno ≠ some Errno.EEXIST →
          (sc_mkdir_and_mount_and_bind_wsl_gpu rootfs_dir wsl_src wsl_dst h).fatal = true
            ∧ (sc_mkdir_and_mount_and_bind_wsl_gpu rootfs_dir wsl_src wsl_dst
                h).host.identity = sc_root_group_identity)
      ∧ (access SC_HOST_WSL_DIR h = 0 → h.mkpath_fault SC_LIB = true →
          (sc_mount_wsl2_gpu_driver rootfs_dir h).fatal = true
            ∧ (sc_mount_wsl2_gpu_driver rootfs_dir h).host.identity =
                sc_root_group_identity) := by
  refine ⟨?_, ?_, ?_, ?_, ?_, ?_, ?_, ?_⟩
  · exact fun h2 hr => nvidia_driver_returns_with_identity _ _ _ _ () h2 hr
  · exact fun h2 hr => bind_returns_with_identity _ _ _ _ () h2 hr
  · exact fun h2 hr => wsl_bind_returns_with_identity _ _ _ _ () h2 hr
  · exact fun h2 hr => wsl_driver_returns_with_identity _ _ () h2 hr
  · exact fun hfile hfail => nvidia_driver_death_identity _ _ _ _ hfile hfail
  · exact fun v src dst hp hmaj hsrc hdst hacc hfail =>
      bind_death_identity _ _ _ src dst _ v hp hmaj hsrc hdst hacc hfail
  · intro hacc hfail
    have b := wsl_bind_active_facts rootfs_dir wsl_src wsl_dst h hacc
    exact ⟨b.1.mpr (Or.inl hfail), b.2.2.2.2.2 hfail⟩
  · exact fun hdir hfail => wsl_driver_death_identity _ _ hdir hfail

/-- Witness of C9 as amended: on bind_host the direct bind returns with the
    identity 1000:1000 it was called with; on denied_host, where the protected
    mkdir is refused, it dies with the identity root:root. -/
theorem identity_restored_on_return_witness :
    ((sc_mkdir_and_mount_and_bind "/snap/core/1" "/usr/lib/nvidia" SC_LIBGL_DIR
        bind_host).fatal = false
      ∧ (sc_mkdir_and_mount_and_bind "/snap/core/1" "/usr/lib/nvidia" SC_LIBGL_DIR
          bind_host).host.identity = bind_host.identity)
    ∧ ((sc_mkdir_and_mount_and_bind "/snap/core/1" "/usr/lib/nvidia" SC_LIBGL_DIR
        denied_host).fatal = true
      ∧ (sc_mkdir_and_mount_and_bind "/snap/core/1" "/usr/lib/nvidia" SC_LIBGL_DIR
          denied_host).host.identity = sc_root_group_identity) := by
  have t := identity_restored_on_return multiarch_config "/snap/core/1" "core"
    "/usr/lib/nvidia" SC_LIBGL_DIR SC_HOST_WSL_DIR SC_WSL_GPU_DIR bind_host
  have d := identity_restored_on_return multiarch_config "/snap/core/1" "core"
    "/usr/lib/nvidia" SC_LIBGL_DIR SC_HOST_WSL_DIR SC_WSL_GPU_DIR denied_host
  have hret : sc_mkdir_and_mount_and_bind "/snap/core/1" "/usr/lib/nvidia" SC_LIBGL_DIR
      bind_host = .ret () (sc_mkdir_and_mount_and_bind "/snap/core/1" "/usr/lib/nvidia"
        SC_LIBGL_DIR bind_host).host := rfl
  refine ⟨⟨by decide, t.2.1 _ hret⟩, ?_⟩
  exact d.2.2.2.2.2.1 { major := 440, raw := bytes_of "440.48.02" ++ List.replicate 119 0 }
    "/usr/lib/nvidia-440" "/snap/core/1/var/lib/snapd/lib/gl"
    (by decide) (by decide) (by decide) (by decide) (by decide) (Or.inl (by decide))

theorem proper_subdir_below_rootfs (rootfs_dir name : String) (hn : 0 < name.length) :
    is_proper_subdir (rootfs_dir ++ SC_EXTRA_LIB_DIR)
      (rootfs_dir ++ (SC_EXTRA_LIB_DIR ++ "/" ++ name)) = true := by
  simp only [is_proper_subdir, Bool.and_eq_true, decide_eq_true_eq]
  constructor
  · rw [ List.isPrefixOf_iff_prefix]
    exact ⟨name.data, by simp [String.data_append]⟩
  · simp only [String.length_append]
    have : ("/" : String).length = 1 := by decide
    omega

theorem below_rootfs_ne_base (rootfs_dir name : String) :
    rootfs_dir ++ (SC_EXTRA_LIB_DIR ++ "/" ++ name) ≠ SC_EXTRA_LIB_DIR
      ∧ rootfs_dir ++ (SC_EXTRA_LIB_DIR ++ "/" ++ name) ≠ rootfs_dir ++ SC_EXTRA_LIB_DIR := by
  have h1 : ("/" : String).length = 1 := by decide
  constructor
  · intro h
    have := congrArg String.length h
    simp only [String.length_append] at this
    omega
  · intro h
    have := congrArg String.length h
    simp only [String.length_append] at this
    omega

theorem mount_of_nvidia_op (rootfs_dir : String) (G : List String) (s d : String)
    (f : Nat) (r : Int) (q : nvidia_op rootfs_dir G (.mount s d f r)) :
    (d = rootfs_dir ++ SC_LIBGL_DIR ∨ d = rootfs_dir ++ SC_LIBGL32_DIR) ∧ f = MS_BIND := by
  rcases q with q | q | q | q | q | q | q
  · exact q.elim
  · exact ⟨Or.inl q.1, q.2⟩
  · exact ⟨Or.inr q.1, q.2⟩
  · exact q.elim
  · exact q.elim
  · exact q.elim
  · exact q.elim

/-- Counterexample to claim C10 as stated: with the sandbox root /snap/core/1
    the bind mount of the driver has the target
    /snap/core/1/var/lib/snapd/lib/gl, which is not a path below
    /var/lib/snapd/lib. -/
theorem mount_target_counterexample :
    Op.mount "/usr/lib/nvidia-440" "/snap/core/1/var/lib/snapd/lib/gl" MS_BIND 0
        ∈ (sc_mount_nvidia_driver multiarch_config "/snap/core/1" "core" bind_host).host.trace
      ∧ is_proper_subdir "/var/lib/snapd/lib" "/snap/core/1/var/lib/snapd/lib/gl" = false := by
  decide

/-- Claim C10 as amended: every mount call that sc_mount_nvidia_driver makes
    through sc_mkdir_and_mount_and_bind is a bind mount whose target is
    rootfs_dir followed by /var/lib/snapd/lib/gl or /var/lib/snapd/lib/gl32, a
    path strictly below the base directory of the sandbox root; every mount
    call of sc_mount_wsl2_gpu_driver is a bind mount onto the literal
    /var/lib/snapd/lib/wsl; no target is /var/lib/snapd/lib itself or
    rootfs_dir followed by /var/lib/snapd/lib. -/
theorem mount_target_below_base (cfg : Config) (rootfs_dir base_snap_name : String)
    (h : Host) :
    (∃ added,
      (sc_mount_nvidia_driver cfg rootfs_dir base_snap_name h).host.trace = h.trace ++ added ∧
      ∀ s d f r, Op.mount s d f r ∈ added →
        (d = rootfs_dir ++ SC_LIBGL_DIR ∨ d = rootfs_dir ++ SC_LIBGL32_DIR)
          ∧ f = MS_BIND
          ∧ is_proper_subdir (rootfs_dir ++ SC_EXTRA_LIB_DIR) d = true
          ∧ d ≠ SC_EXTRA_LIB_DIR
          ∧ d ≠ rootfs_dir ++ SC_EXTRA_LIB_DIR)
    ∧ (∃ added,
      (sc_mount_wsl2_gpu_driver rootfs_dir h).host.trace = h.trace ++ added ∧
      ∀ s d f r, Op.mount s d f r ∈ added →
        s = SC_HOST_WSL_DIR
          ∧ d = SC_WSL_GPU_DIR
          ∧ f = MS_BIND
          ∧ is_proper_subdir SC_EXTRA_LIB_DIR d = true
          ∧ d ≠ SC_EXTRA_LIB_DIR) := by
  constructor
  · obtain ⟨added, htrace, hq⟩ := nvidia_driver_extends cfg rootfs_dir base_snap_name h
    refine ⟨added, htrace, ?_⟩
    intro s d f r hmem
    obtain ⟨hd, hf⟩ := mount_of_nvidia_op _ _ s d f r (hq _ hmem)
    refine ⟨hd, hf, ?_⟩
    rcases hd with hd | hd
    · subst hd
      exact ⟨proper_subdir_below_rootfs rootfs_dir "gl" (by decide),
        (below_rootfs_ne_base rootfs_dir "gl").1, (below_rootfs_ne_base rootfs_dir "gl").2⟩
    · subst hd
      exact ⟨proper_subdir_below_rootfs rootfs_dir "gl32" (by decide),
        (below_rootfs_ne_base rootfs_dir "gl32").1, (below_rootfs_ne_base rootfs_dir "gl32").2⟩
  · obtain ⟨added, htrace, hq⟩ := wsl_driver_extends rootfs_dir h
    refine ⟨added, htrace, ?_⟩
    intro s d f r hmem
    have q : wsl_op (.mount s d f r) := hq _ hmem
    obtain ⟨hs, hd, hf⟩ := q
    subst hd
    exact ⟨hs, rfl, hf, by decide, by decide⟩

-- ---------------------------------------------------------------------------
-- Theorems: the argument rootfs_dir of the WSL2 orchestrator
-- ---------------------------------------------------------------------------

/-- Claim C13: sc_mount_wsl2_gpu_driver ignores its argument rootfs_dir. For
    every host state and any two values of rootfs_dir the two runs are the
    same run; every mkpath, mkdir and mount call it makes names the literal
    paths /var/lib/snapd/lib, /var/lib/snapd/lib/wsl and /usr/lib/wsl/lib, and
    no call is a chown or a populate; whereas every mkdir, chown and mount call
    of sc_mkdir_and_mount_and_bind has the target rootfs_dir followed by the
    target directory. -/
theorem wsl_driver_ignores_rootfs (rootfs_one rootfs_two : String) (h : Host) :
    sc_mount_wsl2_gpu_driver rootfs_one h = sc_mount_wsl2_gpu_driver rootfs_two h
      ∧ (∃ added,
          (sc_mount_wsl2_gpu_driver rootfs_one h).host.trace = h.trace ++ added ∧
          (∀ p m r, Op.mkpath p m r ∈ added → p = "/var/lib/snapd/lib" ∧ m = 0o755) ∧
          (∀ p m r, Op.mkdir p m r ∈ added → p = "/var/lib/snapd/lib/wsl" ∧ m = 0o755) ∧
          (∀ s d f r, Op.mount s d f r ∈ added →
            s = "/usr/lib/wsl/lib" ∧ d = "/var/lib/snapd/lib/wsl" ∧ f = MS_BIND) ∧
          (∀ p u g r, Op.chown p u g r ∉ added) ∧
          (∀ d s g, Op.populate d s g ∉ added))
      ∧ (∀ src_dir tgt_dir, ∃ added,
          (sc_mkdir_and_mount_and_bind rootfs_one src_dir tgt_dir h).host.trace
            = h.trace ++ added ∧
          (∀ p m r, Op.mkdir p m r ∈ added → p = rootfs_one ++ tgt_dir) ∧
          (∀ p u g r, Op.chown p u g r ∈ added → p = rootfs_one ++ tgt_dir) ∧
          (∀ s d f r, Op.mount s d f r ∈ added → d = rootfs_one ++ tgt_dir)) := by
  refine ⟨rfl, ?_, ?_⟩
  · obtain ⟨added, htrace, hq⟩ := wsl_driver_extends rootfs_one h
    refine ⟨added, htrace, ?_, ?_, ?_, ?_, ?_⟩
    · intro p m r hmem
      exact hq _ hmem
    · intro p m r hmem
      exact hq _ hmem
    · intro s d f r hmem
      exact hq _ hmem
    · intro p u g r hmem
      exact hq _ hmem
    · intro d s g hmem
      exact hq _ hmem
  · intro src_dir tgt_dir
    obtain ⟨added, htrace, hq⟩ := bind_extends rootfs_one src_dir tgt_dir h
    refine ⟨added, htrace, ?_, ?_, ?_⟩
    · intro p m r hmem
      exact (hq _ hmem).1
    · intro p u g r hmem
      exact (hq _ hmem).1
    · intro s d f r hmem
      exact (hq _ hmem).1

/-- Witness of C13: on the host with the WSL2 libraries the runs for the roots
    /snap/core/1 and /tmp/other are the same run, on the literal paths. -/
theorem wsl_driver_ignores_rootfs_witness :
    sc_mount_wsl2_gpu_driver "/snap/core/1" wsl_host
        = sc_mount_wsl2_gpu_driver "/tmp/other" wsl_host
      ∧ (sc_mount_wsl2_gpu_driver "/tmp/other" wsl_host).host.trace =
          [Op.set_effective_identity { uid := 0, gid := 0 },
           Op.mkpath "/var/lib/snapd/lib" 0o755 0,
           Op.set_effective_identity { uid := 1000, gid := 1000 },
           Op.set_effective_identity { uid := 0, gid := 0 },
           Op.mkdir "/var/lib/snapd/lib/wsl" 0o755 0,
           Op.set_effective_identity { uid := 1000, gid := 1000 },
           Op.mount "/usr/lib/wsl/lib" "/var/lib/snapd/lib/wsl" MS_BIND 0] :=
  ⟨(wsl_driver_ignores_rootfs "/snap/core/1" "/tmp/other" wsl_host).1, by decide⟩

-- ---------------------------------------------------------------------------
-- Theorems: the multiarch selector
-- ---------------------------------------------------------------------------

theorem glob_files_one_source_ret (rootfs_dir source tgt_dir : String) (globs : List String)
    (h h1 : Host)
    (hr : sc_mkdir_and_mount_and_glob_files rootfs_dir [source] tgt_dir globs h = .ret () h1) :
    ∃ pre, h1.trace = h.trace ++ (pre ++ [Op.populate (rootfs_dir ++ tgt_dir) source globs]) := by
  obtain ⟨added, htrace, _⟩ := extends_with_trans
    (extends_with_trans
      (set_identity_extends (Q := fun _ => True) sc_root_group_identity h trivial)
      (mkdir_extends (Q := fun _ => True) (rootfs_dir ++ tgt_dir) 0o755 _ (fun _ => trivial)))
    (chown_extends (Q := fun _ => True) (rootfs_dir ++ tgt_dir) 0 0 _ (fun _ => trivial))
  obtain ⟨added0, htrace0, _⟩ := extends_with_trans
      (set_identity_extends (Q := fun _ => True) sc_root_group_identity h trivial)
      (mkdir_extends (Q := fun _ => True) (rootfs_dir ++ tgt_dir) 0o755 _ (fun _ => trivial))
  simp only [sc_mkdir_and_mount_and_glob_files] at hr
  split at hr
  · exact Outcome.noConfusion hr
  · split at hr
    · split at hr
      · exact Outcome.noConfusion hr
      · simp only [Outcome.andThen, Outcome.ret.injEq, true_and, List.foldl_cons,
          List.foldl_nil] at hr
        refine ⟨added ++ [Op.set_effective_identity h.identity], ?_⟩
        rw [← hr]
        show (_ ++ [Op.set_effective_identity _]) ++ [Op.populate _ _ _] = _
        rw [htrace]
        simp
        rfl
    · simp only [Outcome.andThen, Outcome.ret.injEq, true_and, List.foldl_cons,
        List.foldl_nil] at hr
      refine ⟨added0 ++ [Op.set_effective_identity h.identity], ?_⟩
      rw [← hr]
      show (_ ++ [Op.set_effective_identity _]) ++ [Op.populate _ _ _] = _
      rw [htrace0]
      simp
      rfl

theorem andThen_ret {α β : Type} (a : α) (h : Host) (k : α → Host → Outcome β) :
    (Outcome.ret a h).andThen k = k a h := rfl

theorem andThen_died {α β : Type} (msg : String) (h : Host) (k : α → Host → Outcome β) :
    (Outcome.died msg h : Outcome α).andThen k = Outcome.died msg h := rfl

theorem gl32_ne_gl (rootfs_dir : String) :
    rootfs_dir ++ SC_LIBGL32_DIR ≠ rootfs_dir ++ SC_LIBGL_DIR := by
  intro h
  have := string_append_cancel _ _ _ h
  revert this
  decide

theorem no_populate_of_bind_op (dst dir src : String) (g : List String)
    (q : bind_op dst (.populate dir src g)) : False := q

theorem bind_both_no_populate (rootfs_dir : String) (h : Host) :
    ∃ added,
      ((sc_mkdir_and_mount_and_bind rootfs_dir "/usr/lib/nvidia" SC_LIBGL_DIR h).andThen
        fun _ h1 =>
          sc_mkdir_and_mount_and_bind rootfs_dir "/usr/lib32/nvidia" SC_LIBGL32_DIR
            h1).host.trace = h.trace ++ added
      ∧ ∀ dir src g, Op.populate dir src g ∉ added := by
  have e : extends_with (fun op => ∀ dir src g, op ≠ Op.populate dir src g) h
      ((sc_mkdir_and_mount_and_bind rootfs_dir "/usr/lib/nvidia" SC_LIBGL_DIR h).andThen
        fun _ h1 =>
          sc_mkdir_and_mount_and_bind rootfs_dir "/usr/lib32/nvidia" SC_LIBGL32_DIR
            h1).host := by
    apply extends_with_andThen
    · refine extends_with_mono ?_ (bind_extends _ _ _ _)
      intro op q dir src g hop
      subst hop
      exact q
    · intro _ h1 _
      refine extends_with_mono ?_ (bind_extends _ _ _ _)
      intro op q dir src g hop
      subst hop
      exact q
  obtain ⟨added, htrace, hq⟩ := e
  exact ⟨added, htrace, fun dir src g hmem => hq _ hmem dir src g rfl⟩

/-- Counterexample to claim C12 as stated: the driver 440.48.02 is loaded, no
    canary library is found and only /usr/lib32/nvidia-440 exists; the
    multiarch selector bind mounts it onto the gl32 directory and neither
    creates nor mounts the gl directory. -/
theorem multiarch_gl32_only_counterexample :
    (sc_mount_nvidia_driver_multiarch multiarch_config "/snap/core/1" nvidia_globs
        lib32_only_host).fatal = false
      ∧ (sc_mount_nvidia_driver_multiarch multiarch_config "/snap/core/1" nvidia_globs
          lib32_only_host).host.trace =
          [Op.set_effective_identity { uid := 0, gid := 0 },
           Op.mkdir "/snap/core/1/var/lib/snapd/lib/gl32" 0o755 0,
           Op.chown "/snap/core/1/var/lib/snapd/lib/gl32" 0 0 0,
           Op.set_effective_identity { uid := 1000, gid := 1000 },
           Op.mount "/usr/lib32/nvidia-440" "/snap/core/1/var/lib/snapd/lib/gl32" MS_BIND 0]
      ∧ (sc_mount_nvidia_driver_multiarch multiarch_config "/snap/core/1" nvidia_globs
          lib32_only_host).host.mounts =
          [("/usr/lib32/nvidia-440", "/snap/core/1/var/lib/snapd/lib/gl32")]
      ∧ "/snap/core/1/var/lib/snapd/lib/gl" ∉
          (sc_mount_nvidia_driver_multiarch multiarch_config "/snap/core/1" nvidia_globs
            lib32_only_host).host.paths := by
  decide

/-- Claim C12 as amended: in sc_mount_nvidia_driver_multiarch a glob farm is
    populated in the gl32 directory only when, in the same call, the 64 bit
    candidate was accepted (its canary library found) and the glob farm of the
    gl directory was populated from it. When the 64 bit candidate is not
    accepted, or there is no 64 bit triplet, the call is the pair of direct
    binds, which are independent of each other: the gl32 bind is attempted
    whether or not the gl bind mounted anything. -/
theorem multiarch_farm32_needs_farm64 (cfg : Config) (rootfs_dir : String)
    (globs : List String) (h : Host) :
    (∃ added,
      (sc_mount_nvidia_driver_multiarch cfg rootfs_dir globs h).host.trace = h.trace ++ added ∧
      ∀ src g, Op.populate (rootfs_dir ++ SC_LIBGL32_DIR) src g ∈ added →
        sc_mount_nvidia_is_driver_in_dir (cfg.NATIVE_LIBDIR ++ "/" ++ cfg.HOST_ARCH_TRIPLET) h
            = .ret 1 h
          ∧ Op.populate (rootfs_dir ++ SC_LIBGL_DIR)
              (cfg.NATIVE_LIBDIR ++ "/" ++ cfg.HOST_ARCH_TRIPLET) globs ∈ added
          ∧ g = globs)
    ∧ (cfg.HOST_ARCH_TRIPLET.length = 0
        ∨ sc_mount_nvidia_is_driver_in_dir (cfg.NATIVE_LIBDIR ++ "/" ++ cfg.HOST_ARCH_TRIPLET) h
            = .ret 0 h →
        sc_mount_nvidia_driver_multiarch cfg rootfs_dir globs h =
          (sc_mkdir_and_mount_and_bind rootfs_dir "/usr/lib/nvidia" SC_LIBGL_DIR h).andThen
            fun _ h1 =>
              sc_mkdir_and_mount_and_bind rootfs_dir "/usr/lib32/nvidia" SC_LIBGL32_DIR h1) := by
  constructor
  · simp only [sc_mount_nvidia_driver_multiarch]
    split
    · cases hd : sc_mount_nvidia_is_driver_in_dir
          (cfg.NATIVE_LIBDIR ++ "/" ++ cfg.HOST_ARCH_TRIPLET) h with
      | died msg h0 =>
        have h0h : h0 = h := by
          have := is_driver_in_dir_host (cfg.NATIVE_LIBDIR ++ "/" ++ cfg.HOST_ARCH_TRIPLET) h
          rw [hd] at this
          exact this
        subst h0h
        rw [andThen_died]
        exact ⟨[], by simp [Outcome.host], by simp⟩
      | ret found h0 =>
        have h0h : h0 = h := is_driver_in_dir_ret _ _ _ _ hd
        subst h0h
        rw [andThen_ret]
        split
        · rename_i hfound
          have hf1 : found = 1 := by simpa using hfound
          subst hf1
          cases hfarm : sc_mkdir_and_mount_and_glob_files rootfs_dir
              [cfg.NATIVE_LIBDIR ++ "/" ++ cfg.HOST_ARCH_TRIPLET] SC_LIBGL_DIR globs h0 with
          | died msg hdied =>
            obtain ⟨added, htrace, hq⟩ := glob_files_extends rootfs_dir
              [cfg.NATIVE_LIBDIR ++ "/" ++ cfg.HOST_ARCH_TRIPLET] SC_LIBGL_DIR globs h0
            rw [hfarm] at htrace
            rw [andThen_died]
            refine ⟨added, htrace, ?_⟩
            intro src g hmem
            exact absurd (hq _ hmem).1 (gl32_ne_gl rootfs_dir)
          | ret u h1 =>
            obtain ⟨added, htrace, hq⟩ := glob_files_extends rootfs_dir
              [cfg.NATIVE_LIBDIR ++ "/" ++ cfg.HOST_ARCH_TRIPLET] SC_LIBGL_DIR globs h0
            rw [hfarm] at htrace
            obtain ⟨pre, hpre⟩ := glob_files_one_source_ret rootfs_dir _ SC_LIBGL_DIR globs
              h0 h1 hfarm
            have hadd : added = pre ++ [Op.populate (rootfs_dir ++ SC_LIBGL_DIR)
                (cfg.NATIVE_LIBDIR ++ "/" ++ cfg.HOST_ARCH_TRIPLET) globs] := by
              have : h0.trace ++ added = h0.trace ++ (pre ++ [Op.populate
                  (rootfs_dir ++ SC_LIBGL_DIR)
                  (cfg.NATIVE_LIBDIR ++ "/" ++ cfg.HOST_ARCH_TRIPLET) globs]) := by
                rw [← hpre]
                exact htrace.symm
              exact List.append_cancel_left this
            have hrest : extends_with (farm_op (rootfs_dir ++ SC_LIBGL32_DIR) globs) h1
                (if cfg.HOST_ARCH32_TRIPLET.length > 0 then
                  (sc_mount_nvidia_is_driver_in_dir
                      (cfg.NATIVE_LIBDIR ++ "/" ++ cfg.HOST_ARCH32_TRIPLET) h1).andThen
                    fun found32 h2 =>
                      if (found32 == 1) = true then
                        sc_mkdir_and_mount_and_glob_files rootfs_dir
                          [cfg.NATIVE_LIBDIR ++ "/" ++ cfg.HOST_ARCH32_TRIPLET] SC_LIBGL32_DIR
                          globs h2
                      else Outcome.ret () h2
                else Outcome.ret () h1).host := by
              split
              · apply extends_with_andThen
                · rw [is_driver_in_dir_host]; exact extends_with_refl _ _
                · intro found32 h2 _
                  split
                  · exact glob_files_extends _ _ _ _ _
                  · exact extends_with_refl _ _
              · exact extends_with_refl _ _
            obtain ⟨l2, htrace2, hq2⟩ := hrest
            rw [andThen_ret]
            refine ⟨added ++ l2, ?_, ?_⟩
            · rw [htrace2]
              have htr : h1.trace = h0.trace ++ added := htrace
              rw [htr, List.append_assoc]
            · intro src g hmem
              have hpop : Op.populate (rootfs_dir ++ SC_LIBGL_DIR)
                  (cfg.NATIVE_LIBDIR ++ "/" ++ cfg.HOST_ARCH_TRIPLET) globs ∈ added ++ l2 := by
                rw [hadd]
                simp
              refine ⟨rfl, hpop, ?_⟩
              rcases List.mem_append.mp hmem with hm | hm
              · exact absurd (hq _ hm).1 (gl32_ne_gl rootfs_dir)
              · exact (hq2 _ hm).2
        · obtain ⟨added, htrace, hno⟩ := bind_both_no_populate rootfs_dir h0
          exact ⟨added, htrace, fun src g hmem => absurd hmem (hno _ _ _)⟩
    · obtain ⟨added, htrace, hno⟩ := bind_both_no_populate rootfs_dir h
      exact ⟨added, htrace, fun src g hmem => absurd hmem (hno _ _ _)⟩
  · intro hdirect
    simp only [sc_mount_nvidia_driver_multiarch]
    rcases hdirect with hlen | hzero
    · simp [hlen]
    · split
      · simp [hzero, Outcome.andThen]
      · rfl

/-- Witness of C12 as amended: with the canary library in both triplet
    directories the selector populates the farm of the gl32 directory, and it
    has accepted the 64 bit candidate and populated the farm of the gl
    directory in the same call. -/
theorem multiarch_farm32_needs_farm64_witness :
    Op.populate ("/snap/core/1" ++ SC_LIBGL32_DIR) "/usr/lib/i386-linux-gnu" nvidia_globs
        ∈ (sc_mount_nvidia_driver_multiarch multiarch_config "/snap/core/1" nvidia_globs
            canary_host).host.trace
      ∧ sc_mount_nvidia_is_driver_in_dir
          (multiarch_config.NATIVE_LIBDIR ++ "/" ++ multiarch_config.HOST_ARCH_TRIPLET)
          canary_host = .ret 1 canary_host
      ∧ Op.populate ("/snap/core/1" ++ SC_LIBGL_DIR)
          (multiarch_config.NATIVE_LIBDIR ++ "/" ++ multiarch_config.HOST_ARCH_TRIPLET)
          nvidia_globs
        ∈ (sc_mount_nvidia_driver_multiarch multiarch_config "/snap/core/1" nvidia_globs
            canary_host).host.trace := by
  have h32 : Op.populate ("/snap/core/1" ++ SC_LIBGL32_DIR) "/usr/lib/i386-linux-gnu"
      nvidia_globs
        ∈ (sc_mount_nvidia_driver_multiarch multiarch_config "/snap/core/1" nvidia_globs
            canary_host).host.trace := by decide
  obtain ⟨added, htrace, hq⟩ :=
    (multiarch_farm32_needs_farm64 multiarch_config "/snap/core/1" nvidia_globs canary_host).1
  have hnil : canary_host.trace = [] := rfl
  rw [hnil, List.nil_append] at htrace
  have t := hq "/usr/lib/i386-linux-gnu" nvidia_globs (htrace ▸ h32)
  exact ⟨h32, t.1, htrace ▸ t.2.1⟩

end SnapConfine
